import Mathlib

/-!
A shallow embedding of the togl 2D physics engine together with theorems
checking its natural-language specification.

Numbers are modeled as real numbers: JavaScript Math.sqrt, Math.cos,
Math.sin, Math.hypot and Math.floor become their exact real counterparts,
and the in-place mutation of bodies and worlds becomes explicit state
passing.  The engine source keeps three scratch collision records on the
world only to avoid allocation; here collision tests simply return an
optional collision record, which is observationally the same.  All other
definitions follow the source function by function and keep its names.
-/

noncomputable section
open scoped Classical

namespace physics

/-- Two dimensional vector, source interface Vector2. -/
@[ext] structure Vec2 where
  x : ℝ
  y : ℝ

/-- Source newVec2. -/
def newVec2 (x y : ℝ) : Vec2 := ⟨x, y⟩

/-- Source dotProduct. -/
def dotProduct (v w : Vec2) : ℝ := v.x * w.x + v.y * w.y

/-- Source crossProduct, the scalar 2D cross product. -/
def crossProduct (v w : Vec2) : ℝ := v.x * w.y - v.y * w.x

/-- Source addVec2. -/
def addVec2 (v w : Vec2) : Vec2 := ⟨v.x + w.x, v.y + w.y⟩

/-- Source scaleVec2. -/
def scaleVec2 (v : Vec2) (n : ℝ) : Vec2 := ⟨v.x * n, v.y * n⟩

/-- Source subtractVec2, literally addVec2 of the (-1) scaling. -/
def subtractVec2 (v w : Vec2) : Vec2 := addVec2 v (scaleVec2 w (-1))

/-- Source lengthVec2: dotProduct(v,v) raised to the power one half.  The
dot product of a vector with itself is nonnegative, so this is the real
square root. -/
def lengthVec2 (v : Vec2) : ℝ := Real.sqrt (dotProduct v v)

/-- Source rotateVec2: rotation of v around the point c by the angle. -/
def rotateVec2 (v c : Vec2) (angle : ℝ) : Vec2 :=
  ⟨(v.x - c.x) * Real.cos angle - (v.y - c.y) * Real.sin angle + c.x,
   (v.x - c.x) * Real.sin angle + (v.y - c.y) * Real.cos angle + c.y⟩

/-- Source normalize: scaling by one over (length or else 1).  The
JavaScript expression (length || 1) yields 1 exactly when the length is
zero, so the zero vector maps to the zero vector. -/
def normalize (v : Vec2) : Vec2 :=
  scaleVec2 v (1 / (if lengthVec2 v = 0 then 1 else lengthVec2 v))

/-- Source ShapeType enumeration. -/
inductive ShapeType where
  | CIRCLE
  | RECTANGLE
deriving DecidableEq

/-- Source Joint record: endpoints are referenced by body id. -/
structure Joint where
  bodyA : ℕ
  bodyB : ℕ
  distance : ℝ
  rigidity : ℝ
  elasticity : ℝ

/-- Source Collision record.  The source field named end is called
endPoint here because end is a reserved word in Lean. -/
structure Collision where
  depth : ℝ
  normal : Vec2
  start : Vec2
  endPoint : Vec2

/-- Helper building a function on Fin 4 from four values, used for the
four-element vertex and face-normal arrays of the source. -/
def quad (a b c d : Vec2) : Fin 4 → Vec2 :=
  fun i => if i = 0 then a else if i = 1 then b else if i = 2 then c else d

/-- Source Body record.  The mass field stores the inverse mass (zero for
an immobile body) and the inertia field stores what the solver consumes
as inverse inertia, exactly as in the source.  The opaque user data slot
is omitted because the engine never reads it. -/
structure Body where
  id : ℕ
  type : ShapeType
  center : Vec2
  averageCenter : Vec2
  friction : ℝ
  restitution : ℝ
  mass : ℝ
  velocity : Vec2
  acceleration : Vec2
  angle : ℝ
  averageAngle : ℝ
  angularVelocity : ℝ
  angularAcceleration : ℝ
  bounds : ℝ
  width : ℝ
  height : ℝ
  inertia : ℝ
  faceNormals : Fin 4 → Vec2
  vertices : Fin 4 → Vec2
  pinned : Bool
  restingTime : ℝ

/-- Source PhysicsWorld record.  The three scratch collision buffers are
not part of the functional state: collision tests return their result. -/
structure World where
  bodies : List Body
  gravity : Vec2
  angularDamp : ℝ
  damp : ℝ
  nextId : ℕ
  joints : List Joint

/-- Source createWorld. -/
def createWorld : World :=
  { bodies := []
    gravity := newVec2 0 100
    angularDamp := 0.98
    damp := 0.98
    nextId := 1
    joints := [] }

/-- Source createJoint: the rest distance records the current distance of
the two centers plus one half. -/
def createJoint (world : World) (bodyA bodyB : Body) (rigidity elasticity : ℝ) : World :=
  { world with joints := world.joints ++
      [{ bodyA := bodyA.id
         bodyB := bodyB.id
         distance := lengthVec2 (subtractVec2 bodyA.center bodyB.center) + 0.5
         rigidity := rigidity
         elasticity := elasticity }] }

/-- Source calculateInertia.  The rectangle case stores a true inverse
inertia, the circle case stores the non-inverted quantity mass times
bounds squared over 12; the source keeps this asymmetry and so do we. -/
def calculateInertia (type : ShapeType) (mass bounds width height : ℝ) : ℝ :=
  match type with
  | ShapeType.RECTANGLE => if mass > 0 then 1 / (mass * (width ^ 2 + height ^ 2) / 12) else 0
  | ShapeType.CIRCLE => if mass > 0 then mass * bounds ^ 2 / 12 else 0

/-- Source Math.floor on a real number. -/
def mathFloor (x : ℝ) : ℝ := (⌊x⌋ : ℤ)

/-- Source computeRectNormals: the outward normal of face i is the
normalized difference of vertices (i+1) mod 4 and (i+2) mod 4. -/
def computeRectNormals (vertices : Fin 4 → Vec2) : Fin 4 → Vec2 :=
  fun i => normalize (subtractVec2 (vertices (i + 1)) (vertices (i + 2)))

/-- Source createRigidShape.  Returns the new body together with the
world extended by it.  The empty face-normal array of a circle is
modeled by the constant zero function; circles never read it. -/
def createRigidShape (world : World) (center : Vec2) (mass friction restitution : ℝ)
    (type : ShapeType) (bounds : ℝ) (width height : ℝ) : Body × World :=
  let vs := quad
    ⟨center.x - width / 2, center.y - height / 2⟩
    ⟨center.x + width / 2, center.y - height / 2⟩
    ⟨center.x + width / 2, center.y + height / 2⟩
    ⟨center.x - width / 2, center.y + height / 2⟩
  let shape : Body :=
    { id := world.nextId
      type := type
      center := center
      averageCenter := center
      friction := friction
      restitution := restitution
      mass := if mass ≠ 0 then 1 / mass else 0
      velocity := newVec2 0 0
      acceleration := if mass ≠ 0 then world.gravity else newVec2 0 0
      angle := 0
      averageAngle := 0
      angularVelocity := 0
      angularAcceleration := 0
      bounds := bounds
      width := width
      height := height
      inertia := calculateInertia type mass bounds width height
      faceNormals := if type = ShapeType.RECTANGLE then computeRectNormals vs else fun _ => ⟨0, 0⟩
      vertices := vs
      pinned := false
      restingTime := 0 }
  (shape, { world with bodies := world.bodies ++ [shape], nextId := world.nextId + 1 })

/-- Source createCircle: center coordinates and radius are floored. -/
def createCircle (world : World) (center : Vec2) (radius mass friction restitution : ℝ) :
    Body × World :=
  createRigidShape world ⟨mathFloor center.x, mathFloor center.y⟩ mass friction restitution
    ShapeType.CIRCLE (mathFloor radius) 0 0

/-- Source createRectangle: center, width and height are floored, the
bounding radius is half the diagonal. -/
def createRectangle (world : World) (center : Vec2) (width height mass friction restitution : ℝ) :
    Body × World :=
  createRigidShape world ⟨mathFloor center.x, mathFloor center.y⟩ mass friction restitution
    ShapeType.RECTANGLE (Real.sqrt ((mathFloor width) ^ 2 + (mathFloor height) ^ 2) / 2)
    (mathFloor width) (mathFloor height)

/-- Source allowPinnedRotation: assigns the caller supplied value directly
to the inverse-mass field, recomputes inertia from it, and pins. -/
def allowPinnedRotation (body : Body) (mass : ℝ) : Body :=
  { body with
      mass := mass
      inertia := calculateInertia body.type mass body.bounds body.width body.height
      pinned := true }

/-- Source moveShape: a pinned shape is left untouched; otherwise the
center moves, and for rectangles the four vertices move as well. -/
def moveShape (shape : Body) (v : Vec2) : Body :=
  if shape.pinned then shape
  else if shape.type = ShapeType.RECTANGLE then
    { shape with
        center := addVec2 shape.center v
        vertices := fun i => addVec2 (shape.vertices i) v }
  else { shape with center := addVec2 shape.center v }

/-- Source rotateShape: the angle always advances; rectangle vertices
rotate about the center and the face normals are recomputed. -/
def rotateShape (shape : Body) (angle : ℝ) : Body :=
  if shape.type = ShapeType.RECTANGLE then
    let vs := fun i => rotateVec2 (shape.vertices i) shape.center angle
    { shape with
        angle := shape.angle + angle
        vertices := vs
        faceNormals := computeRectNormals vs }
  else { shape with angle := shape.angle + angle }

/-- Integration step of worldStep for one body: bodies with inverse mass
zero are skipped entirely. -/
def integrate (fps : ℝ) (body : Body) : Body :=
  if body.mass ≠ 0 then
    let b1 := { body with velocity := addVec2 body.velocity (scaleVec2 body.acceleration (1 / fps)) }
    let b2 := moveShape b1 (scaleVec2 b1.velocity (1 / fps))
    let b3 := { b2 with angularVelocity := b2.angularVelocity + b2.angularAcceleration * 1 / fps }
    rotateShape b3 (b3.angularVelocity * 1 / fps)
  else body

/-- One joint applied to one body inside the joint pass of worldStep:
moves the body by the scaled correction vector (stretched uses one minus
elasticity, compressed uses rigidity, halved when the other endpoint is
movable) and adds the correction times fps to the velocity. -/
def applyJoint (fps : ℝ) (other : Body) (joint : Joint) (body : Body) : Body :=
  let vec := subtractVec2 other.center body.center
  let distance := lengthVec2 vec
  let diff := distance - joint.distance
  if diff ≠ 0 then
    let vec2 :=
      if diff > 0 then
        scaleVec2 vec ((1 / distance) * diff * (1 - joint.elasticity) * (if other.mass = 0 then 1 else 0.5))
      else
        scaleVec2 vec ((1 / distance) * diff * joint.rigidity * (if other.mass = 0 then 1 else 0.5))
    let moved := moveShape body vec2
    { moved with velocity := addVec2 moved.velocity (scaleVec2 vec2 fps) }
  else body

/-- One joint of the joint pass acting on the body list: the body at
index i is re-read, the other endpoint is looked up by id in the current
list, and on success the corrected body is written back at index i. -/
def jointStepOnce (fps : ℝ) (i : ℕ) (bodies : List Body) (joint : Joint) : List Body :=
  match bodies[i]? with
  | none => bodies
  | some b =>
    let otherId := if joint.bodyA = b.id then joint.bodyB else joint.bodyA
    match bodies.find? (fun bb => bb.id = otherId) with
    | none => bodies
    | some other => bodies.set i (applyJoint fps other joint b)

/-- Joint pass of worldStep for the body at index i: skipped when the
inverse mass is zero, otherwise every joint referencing the body id is
applied in order. -/
def jointPassBody (fps : ℝ) (joints : List Joint) (bodies : List Body) (i : ℕ) : List Body :=
  match bodies[i]? with
  | none => bodies
  | some b =>
    if b.mass = 0 then bodies
    else (joints.filter (fun j => j.bodyA = b.id ∨ j.bodyB = b.id)).foldl
      (jointStepOnce fps i) bodies

/-- Full joint pass of worldStep, bodies processed in list order. -/
def jointPass (fps : ℝ) (joints : List Joint) (bodies : List Body) : List Body :=
  (List.range bodies.length).foldl (jointPassBody fps joints) bodies

/-- Source setCollisionInfo: depth, normal and start are stored and the
end point is derived as start plus depth times normal. -/
def setCollisionInfo (d : ℝ) (n s : Vec2) : Collision :=
  { depth := d, normal := n, start := s, endPoint := addVec2 s (scaleVec2 n d) }

/-- Source boundTest: bounding circles intersect. -/
def boundTest (s1 s2 : Body) : Prop :=
  lengthVec2 (subtractVec2 s2.center s1.center) ≤ s1.bounds + s2.bounds

/-- Inner loop of findAxisLeastPenetration: among the four vertices of
the other rectangle, in descending index order, the one with the largest
strictly positive projection on the direction, if any. -/
def supportOnB (otherRect : Body) (dir ptOnEdge : Vec2) : Option (Vec2 × ℝ) :=
  ([3, 2, 1, 0] : List (Fin 4)).foldl
    (fun acc j =>
      let proj := dotProduct (subtractVec2 (otherRect.vertices j) ptOnEdge) dir
      match acc with
      | none => if proj > 0 then some (otherRect.vertices j, proj) else none
      | some (sp, d) => if proj > 0 ∧ proj > d then some (otherRect.vertices j, proj) else some (sp, d))
    none

/-- Outer loop of findAxisLeastPenetration over the four faces of the
reference rectangle, in descending index order, stopping at the first
face without a supporting vertex.  The accumulator keeps the source
variables bestDistance (initially 1e9) and bestIndex with its support
point (initially the -1 sentinel, modeled as none).  Should the sentinel
survive, the source would read past the array; that unreachable read is
modeled by zero vectors. -/
def falpAux (rect otherRect : Body) : List (Fin 4) → ℝ → Option (Fin 4 × Vec2) → Option Collision
  | [], bestDistance, best =>
    match best with
    | some (idx, sp) =>
      some (setCollisionInfo bestDistance (rect.faceNormals idx)
        (addVec2 sp (scaleVec2 (rect.faceNormals idx) bestDistance)))
    | none => some (setCollisionInfo bestDistance ⟨0, 0⟩ ⟨0, 0⟩)
  | i :: rest, bestDistance, best =>
    let n := rect.faceNormals i
    match supportOnB otherRect (scaleVec2 n (-1)) (rect.vertices i) with
    | none => none
    | some (sp, d) =>
      if d < bestDistance then falpAux rect otherRect rest d (some (i, sp))
      else falpAux rect otherRect rest bestDistance best

/-- Source findAxisLeastPenetration. -/
def findAxisLeastPenetration (rect otherRect : Body) : Option Collision :=
  falpAux rect otherRect [3, 2, 1, 0] 1000000000 none

/-- Circle versus circle branch of testCollision. -/
def circleCircleCollision (c1 c2 : Body) : Option Collision :=
  let vFrom1to2 := subtractVec2 c2.center c1.center
  let rSum := c1.bounds + c2.bounds
  let dist := lengthVec2 vFrom1to2
  if dist ≤ Real.sqrt (rSum * rSum) then
    some (setCollisionInfo (rSum - dist) (normalize vFrom1to2)
      (addVec2 c2.center (scaleVec2 (normalize (scaleVec2 vFrom1to2 (-1))) c2.bounds)))
  else none

/-- Rectangle versus rectangle branch of testCollision: both directed
axis searches must succeed, then the candidate of strictly smaller depth
wins; on a tie the second candidate wins and its normal is negated. -/
def rectRectCollision (c1 c2 : Body) : Option Collision :=
  match findAxisLeastPenetration c1 c2 with
  | none => none
  | some r1 =>
    match findAxisLeastPenetration c2 c1 with
    | none => none
    | some r2 =>
      if r1.depth < r2.depth then
        some (setCollisionInfo r1.depth r1.normal
          (subtractVec2 r1.start (scaleVec2 r1.normal r1.depth)))
      else
        some (setCollisionInfo r2.depth (scaleVec2 r2.normal (-1)) r2.start)

/-- Nearest-face scan of the rectangle versus circle branch: faces are
visited in descending index order and the scan stops at the first face
the circle center is strictly outside of; returns the best projection,
the nearest edge index and whether the center stayed inside. -/
def nearestEdgeScan (c1 c2 : Body) : List (Fin 4) → ℝ → Fin 4 → ℝ × Fin 4 × Bool
  | [], bd, ne => (bd, ne, true)
  | i :: rest, bd, ne =>
    let proj := dotProduct (subtractVec2 c2.center (c1.vertices i)) (c1.faceNormals i)
    if proj > 0 then (proj, i, false)
    else if proj > bd then nearestEdgeScan c1 c2 rest proj i
    else nearestEdgeScan c1 c2 rest bd ne

/-- Rectangle versus circle branch of testCollision, c1 the rectangle and
c2 the circle. -/
def rectCircleCollision (c1 c2 : Body) : Option Collision :=
  let scan := nearestEdgeScan c1 c2 [3, 2, 1, 0] (-1000000000) 0
  let bestDistance := scan.1
  let nearestEdge := scan.2.1
  let inside := scan.2.2
  if inside then
    some (setCollisionInfo (c2.bounds - bestDistance) (c1.faceNormals nearestEdge)
      (subtractVec2 c2.center (scaleVec2 (c1.faceNormals nearestEdge) c2.bounds)))
  else
    let v1 := subtractVec2 c2.center (c1.vertices nearestEdge)
    let v2 := subtractVec2 (c1.vertices (nearestEdge + 1)) (c1.vertices nearestEdge)
    if dotProduct v1 v2 < 0 then
      let dis := lengthVec2 v1
      if dis > c2.bounds then none
      else some (setCollisionInfo (c2.bounds - dis) (normalize v1)
        (addVec2 c2.center (scaleVec2 (normalize v1) (-c2.bounds))))
    else
      let w1 := subtractVec2 c2.center (c1.vertices (nearestEdge + 1))
      let w2 := scaleVec2 v2 (-1)
      if dotProduct w1 w2 < 0 then
        let dis := lengthVec2 w1
        if dis > c2.bounds then none
        else some (setCollisionInfo (c2.bounds - dis) (normalize w1)
          (addVec2 c2.center (scaleVec2 (normalize w1) (-c2.bounds))))
      else
        if bestDistance < c2.bounds then
          some (setCollisionInfo (c2.bounds - bestDistance) (c1.faceNormals nearestEdge)
            (subtractVec2 c2.center (scaleVec2 (c1.faceNormals nearestEdge) c2.bounds)))
        else none

/-- Source testCollision: two immobile bodies never collide; dispatch on
the shape kinds, swapping so the rectangle comes first in the mixed
case. -/
def testCollision (c1 c2 : Body) : Option Collision :=
  if c1.mass = 0 ∧ c2.mass = 0 then none
  else
    match c1.type, c2.type with
    | ShapeType.CIRCLE, ShapeType.CIRCLE => circleCircleCollision c1 c2
    | ShapeType.RECTANGLE, ShapeType.RECTANGLE => rectRectCollision c1 c2
    | ShapeType.CIRCLE, ShapeType.RECTANGLE => rectCircleCollision c2 c1
    | ShapeType.RECTANGLE, ShapeType.CIRCLE => rectCircleCollision c1 c2

/-- Normal reorientation done by worldStep right after a positive test:
when the normal does not point from bodies[i] toward bodies[j], negate it
and swap the start and end points. -/
def orientInfo (info : Collision) (bi bj : Body) : Collision :=
  if dotProduct info.normal (subtractVec2 bj.center bi.center) < 0 then
    { depth := info.depth
      normal := scaleVec2 info.normal (-1)
      start := info.endPoint
      endPoint := info.start }
  else info

/-- Positional correction vector of resolveCollision: depth over the sum
of inverse masses, times the 0.8 correction rate, along the normal. -/
def correctionAmount (s1 s2 : Body) (info : Collision) : Vec2 :=
  scaleVec2 info.normal (info.depth / (s1.mass + s2.mass) * 0.8)

/-- Contact point of resolveCollision: inverse-mass weighted blend of
start and end. -/
def contactPoint (s1 s2 : Body) (info : Collision) : Vec2 :=
  addVec2 (scaleVec2 info.start (s2.mass / (s1.mass + s2.mass)))
    (scaleVec2 info.endPoint (s1.mass / (s1.mass + s2.mass)))

/-- Velocity of a body at a point, including the rotational part. -/
def pointVelocity (s : Body) (p : Vec2) : Vec2 :=
  addVec2 s.velocity
    ⟨-1 * s.angularVelocity * (p.y - s.center.y), s.angularVelocity * (p.x - s.center.x)⟩

/-- Relative velocity of the second body with respect to the first at the
contact point. -/
def relVel (s1 s2 : Body) (p : Vec2) : Vec2 :=
  subtractVec2 (pointVelocity s2 p) (pointVelocity s1 p)

/-- Normal impulse scalar jN of resolveCollision. -/
def jN (s1 s2 : Body) (n p : Vec2) : ℝ :=
  let r1 := subtractVec2 p s1.center
  let r2 := subtractVec2 p s2.center
  (-(1 + min s1.restitution s2.restitution) * dotProduct (relVel s1 s2 p) n) /
    (s1.mass + s2.mass + crossProduct r1 n * crossProduct r1 n * s1.inertia +
      crossProduct r2 n * crossProduct r2 n * s2.inertia)

/-- Tangent direction of resolveCollision: the negated normalized
residual of the relative velocity after removing its normal component. -/
def tangentOf (rv n : Vec2) : Vec2 :=
  scaleVec2 (normalize (subtractVec2 rv (scaleVec2 n (dotProduct rv n)))) (-1)

/-- Unclamped friction impulse scalar jT of resolveCollision. -/
def jTraw (s1 s2 : Body) (n p : Vec2) : ℝ :=
  let r1 := subtractVec2 p s1.center
  let r2 := subtractVec2 p s2.center
  let t := tangentOf (relVel s1 s2 p) n
  (-(1 + min s1.restitution s2.restitution) * dotProduct (relVel s1 s2 p) t *
      min s1.friction s2.friction) /
    (s1.mass + s2.mass + crossProduct r1 t * crossProduct r1 t * s1.inertia +
      crossProduct r2 t * crossProduct r2 t * s2.inertia)

/-- Friction impulse actually applied: the source clamps only from above,
jT greater than jN becomes jN. -/
def jTval (s1 s2 : Body) (n p : Vec2) : ℝ :=
  if jTraw s1 s2 n p > jN s1 s2 n p then jN s1 s2 n p else jTraw s1 s2 n p

/-- Impulse, damping and pinned-override stage of resolveCollision,
acting on the already position-corrected bodies. -/
def velocityResolution (world : World) (s1 s2 : Body) (info : Collision) : Body × Body :=
  let n := info.normal
  let p := contactPoint s1 s2 info
  let r1 := subtractVec2 p s1.center
  let r2 := subtractVec2 p s2.center
  let jn := jN s1 s2 n p
  let impN := scaleVec2 n jn
  let a1 := { s1 with
      velocity := subtractVec2 s1.velocity (scaleVec2 impN s1.mass)
      angularVelocity := s1.angularVelocity - crossProduct r1 n * jn * s1.inertia }
  let a2 := { s2 with
      velocity := addVec2 s2.velocity (scaleVec2 impN s2.mass)
      angularVelocity := s2.angularVelocity + crossProduct r2 n * jn * s2.inertia }
  let t := tangentOf (relVel s1 s2 p) n
  let jt := jTval s1 s2 n p
  let impT := scaleVec2 t jt
  let b1 := { a1 with
      velocity := subtractVec2 a1.velocity (scaleVec2 impT s1.mass)
      angularVelocity := a1.angularVelocity - crossProduct r1 t * jt * s1.inertia }
  let b2 := { a2 with
      velocity := addVec2 a2.velocity (scaleVec2 impT s2.mass)
      angularVelocity := a2.angularVelocity + crossProduct r2 t * jt * s2.inertia }
  let c1 := { b1 with
      velocity := ⟨b1.velocity.x * world.damp, b1.velocity.y * world.damp⟩
      angularVelocity := b1.angularVelocity * world.angularDamp }
  let c2 := { b2 with
      velocity := ⟨b2.velocity.x * world.damp, b2.velocity.y * world.damp⟩
      angularVelocity := b2.angularVelocity * world.angularDamp }
  let d1 := if c1.pinned then { c1 with velocity := ⟨0, 0⟩ } else c1
  let d2 := if c2.pinned then { c2 with velocity := ⟨0, 0⟩ } else c2
  (d1, d2)

/-- Source resolveCollision.  Returns the two updated bodies and whether
an impulse was applied.  Note the middle early return: when the bodies
separate, the positional correction has already happened even though the
result is reported false. -/
def resolveCollision (world : World) (s1 s2 : Body) (info : Collision) : Body × Body × Bool :=
  if s1.mass = 0 ∧ s2.mass = 0 then (s1, s2, false)
  else
    let corr := correctionAmount s1 s2 info
    if lengthVec2 corr = 0 then (s1, s2, false)
    else
      let t1 := moveShape s1 (scaleVec2 corr (-s1.mass))
      let t2 := moveShape s2 (scaleVec2 corr s2.mass)
      if dotProduct (relVel t1 t2 (contactPoint t1 t2 info)) info.normal > 0 then (t1, t2, false)
      else
        let r := velocityResolution world t1 t2 info
        (r.1, r.2, true)

/-- One candidate pair of the collision sweep of worldStep: skip the
diagonal, skip immobile pairs, bound test, narrow test, reorient the
normal toward bodies[j], resolve, and record whether anything resolved. -/
def pairStep (world : World) (st : List Body × Bool) (ij : ℕ × ℕ) : List Body × Bool :=
  if ij.1 = ij.2 then st
  else
    match st.1[ij.1]?, st.1[ij.2]? with
    | some bi, some bj =>
      if bi.mass = 0 ∧ bj.mass = 0 then st
      else if boundTest bi bj then
        match testCollision bi bj with
        | some info =>
          let r := resolveCollision world bi bj (orientInfo info bi bj)
          ((st.1.set ij.1 r.1).set ij.2 r.2.1, st.2 || r.2.2)
        | none => st
      else st
    | _, _ => st

/-- Pair order of the collision sweep: outer index descending from the
last body, inner index descending down to the outer index. -/
def pairList (n : ℕ) : List (ℕ × ℕ) :=
  ((List.range n).reverse).flatMap
    (fun i => ((List.range (n - i)).reverse).map (fun k => (i, k + i)))

/-- One full collision sweep over every pair. -/
def sweepOnce (world : World) (bodies : List Body) : List Body × Bool :=
  (pairList bodies.length).foldl (pairStep world) (bodies, false)

/-- Up to k collision sweeps, stopping early after a sweep in which no
pair resolved. -/
def sweeps (world : World) : ℕ → List Body → List Body
  | 0, bodies => bodies
  | k + 1, bodies =>
    let r := sweepOnce world bodies
    if r.2 then sweeps world k r.1 else r.1

/-- Rest-time bookkeeping of worldStep for one body. -/
def restUpdate (fps : ℝ) (body : Body) : Body :=
  if body.mass > 0 then
    let b1 := { body with restingTime := body.restingTime + 1 / fps }
    let b2 :=
      if |b1.center.x - b1.averageCenter.x| > 1 then
        { b1 with averageCenter := ⟨b1.center.x, b1.averageCenter.y⟩, restingTime := 0 }
      else b1
    let b3 :=
      if |b2.center.y - b2.averageCenter.y| > 1 then
        { b2 with averageCenter := ⟨b2.averageCenter.x, b2.center.y⟩, restingTime := 0 }
      else b2
    if |b3.angle - b3.averageAngle| ≥ 0.1 then
      { b3 with averageAngle := b3.angle, restingTime := 0 }
    else b3
  else body

/-- Source worldStep: integration, joint pass, up to nine collision
sweeps, rest bookkeeping. -/
def worldStep (fps : ℝ) (world : World) : World :=
  let bodies1 := world.bodies.map (integrate fps)
  let bodies2 := jointPass fps world.joints bodies1
  let bodies3 := sweeps world 9 bodies2
  let bodies4 := bodies3.map (restUpdate fps)
  { world with bodies := bodies4 }

/-- Iterated worldStep. -/
def stepN (fps : ℝ) : ℕ → World → World
  | 0, world => world
  | n + 1, world => stepN fps n (worldStep fps world)

/-- Per-body update of getWorldBounds. -/
def updateBoundsBody (mm : Vec2 × Vec2) (b : Body) : Vec2 × Vec2 :=
  match b.type with
  | ShapeType.CIRCLE =>
    (⟨min mm.1.x (b.center.x - b.bounds), min mm.1.y (b.center.y - b.bounds)⟩,
     ⟨max mm.2.x (b.center.x + b.bounds), max mm.2.y (b.center.y + b.bounds)⟩)
  | ShapeType.RECTANGLE =>
    ([0, 1, 2, 3] : List (Fin 4)).foldl
      (fun acc i =>
        (⟨min acc.1.x (b.vertices i).x, min acc.1.y (b.vertices i).y⟩,
         ⟨max acc.2.x (b.vertices i).x, max acc.2.y (b.vertices i).y⟩))
      mm

/-- Source getWorldBounds.  The source guard testing the body list for
JavaScript falsiness never fires because an array is always truthy, so on
an empty world the source reads the center of an undefined first element
and throws; that failure is modeled by none. -/
def getWorldBounds (world : World) : Option (Vec2 × Vec2) :=
  match world.bodies with
  | [] => none
  | b :: _ =>
    some (world.bodies.foldl updateBoundsBody
      (⟨b.center.x - b.bounds, b.center.y - b.bounds⟩,
       ⟨b.center.x + b.bounds, b.center.y + b.bounds⟩))

/-! Concrete fixtures used by the witnesses and counterexamples below:
small worlds built through the factory operations of the engine. -/

/-- A movable circle of radius 10 at the origin. -/
def cA : Body := (createCircle createWorld ⟨0, 0⟩ 10 1 0 1).1

/-- The world holding cA. -/
def wA : World := (createCircle createWorld ⟨0, 0⟩ 10 1 0 1).2

/-- A movable circle of radius 10 at (15, 0), overlapping cA by 5. -/
def cB : Body := (createCircle wA ⟨15, 0⟩ 10 1 0 1).1

/-- A movable circle congruent to cA placed at the same center, for the
coincident-centers counterexample. -/
def cC : Body := (createCircle wA ⟨0, 0⟩ 10 1 0 1).1

/-- A movable 4 by 4 square centered at (2, 2), occupying [0,4]x[0,4]. -/
def rA : Body := (createRectangle createWorld ⟨2, 2⟩ 4 4 1 (1/2) (1/2)).1

/-- The world holding rA. -/
def wR : World := (createRectangle createWorld ⟨2, 2⟩ 4 4 1 (1/2) (1/2)).2

/-- A static 4 by 2 rectangle centered at (5, 2), occupying [3,7]x[1,3];
it overlaps rA with equal least penetration 1 in both axis searches. -/
def rB : Body := (createRectangle wR ⟨5, 2⟩ 4 2 0 (1/2) (1/2)).1

/-- A static small circle at (10, 0) serving as a joint anchor. -/
def anchorBody : Body := (createCircle wA ⟨10, 0⟩ 5 0 0 0).1

/-- A joint with rest distance 5 between body ids 1 and 2. -/
def jointJ : Joint := { bodyA := 1, bodyB := 2, distance := 5, rigidity := 1, elasticity := 0 }

/-- A static circle at the origin turned into a pinned rotatable body of
mass 1 by allowPinnedRotation. -/
def pinnedBody : Body := allowPinnedRotation (createCircle createWorld ⟨0, 0⟩ 10 0 0 0).1 1

/-- A world holding only the pinned body. -/
def pinWorld : World := { createWorld with bodies := [pinnedBody] }

/-- A movable circle with gravity removed and a set velocity. -/
def freeBody : Body :=
  { (createCircle createWorld ⟨0, 0⟩ 10 1 0 0).1 with acceleration := ⟨0, 0⟩, velocity := ⟨3, 4⟩ }

/-- A world holding only the free body. -/
def freeWorld : World := { createWorld with bodies := [freeBody] }

/-- A static circle of radius 10 at the origin. -/
def statBody : Body := (createCircle createWorld ⟨0, 0⟩ 10 0 0 0).1

/-- A movable circle overlapping the static one. -/
def dynBody : Body :=
  (createCircle (createCircle createWorld ⟨0, 0⟩ 10 0 0 0).2 ⟨5, 0⟩ 10 1 0 0).1

/-- A world holding the static circle and a movable circle colliding with
it. -/
def mixWorld : World := { createWorld with bodies := [statBody, dynBody] }

/-- First body of the friction counterexample: a circle created with
friction minus one million (the factory does not validate coefficients)
whose velocity has been set by prior simulation. -/
def fA : Body :=
  { (createCircle createWorld ⟨0, 0⟩ 10 1 (-1000000) 0).1 with velocity := ⟨1, 1⟩ }

/-- Second body of the friction counterexample. -/
def fB : Body :=
  (createCircle (createCircle createWorld ⟨0, 0⟩ 10 1 (-1000000) 0).2 ⟨15, 0⟩ 10 1 (-1000000) 0).1

/-- The collision record the circle test produces for fA and fB. -/
def fInfo : Collision := ⟨5, ⟨1, 0⟩, ⟨5, 0⟩, ⟨10, 0⟩⟩

/-- The first friction body after the positional correction inside
resolveCollision. -/
def fA1 : Body := moveShape fA (scaleVec2 (correctionAmount fA fB fInfo) (-fA.mass))

/-- The second friction body after the positional correction inside
resolveCollision. -/
def fB1 : Body := moveShape fB (scaleVec2 (correctionAmount fA fB fInfo) fB.mass)

/-- The contact point resolveCollision computes for the friction
counterexample. -/
def fP : Vec2 := contactPoint fA1 fB1 fInfo

/-- The body at index t of the list is static in the created state:
inverse mass zero, velocity zero, center c. -/
def staticAt (t : ℕ) (c : Vec2) (bodies : List Body) : Prop :=
  ∃ b, bodies[t]? = some b ∧ b.mass = 0 ∧ b.velocity = ⟨0, 0⟩ ∧ b.center = c

/-- The body at index t of the list is pinned with center c. -/
def pinnedAt (t : ℕ) (c : Vec2) (bodies : List Body) : Prop :=
  ∃ b, bodies[t]? = some b ∧ b.pinned = true ∧ b.center = c

/-- Correction vector of the joint pass as the spec words it for claim
C6: the vector to the other endpoint scaled by (1/length) * diff *
coefficient * (1 if the other body is static, else 0.5), where the
coefficient is (1 - elasticity) when diff is positive and rigidity when
it is negative. -/
def jointCorrection (other : Body) (j : Joint) (b : Body) : Vec2 :=
  let vec := subtractVec2 other.center b.center
  let distance := lengthVec2 vec
  let diff := distance - j.distance
  scaleVec2 vec ((1 / distance) * diff *
    (if diff > 0 then 1 - j.elasticity else j.rigidity) *
    (if other.mass = 0 then 1 else 0.5))

/-! Basic evaluation lemmas for the embedding. -/

theorem createRigidShape_center (w : World) (c : Vec2) (m f r : ℝ) (ty : ShapeType)
    (bd wd ht : ℝ) : ((createRigidShape w c m f r ty bd wd ht).1).center = c := rfl

theorem createRigidShape_mass (w : World) (c : Vec2) (m f r : ℝ) (ty : ShapeType)
    (bd wd ht : ℝ) :
    ((createRigidShape w c m f r ty bd wd ht).1).mass = if m ≠ 0 then 1 / m else 0 := rfl

theorem createRigidShape_velocity (w : World) (c : Vec2) (m f r : ℝ) (ty : ShapeType)
    (bd wd ht : ℝ) : ((createRigidShape w c m f r ty bd wd ht).1).velocity = ⟨0, 0⟩ := rfl

theorem createRigidShape_type (w : World) (c : Vec2) (m f r : ℝ) (ty : ShapeType)
    (bd wd ht : ℝ) : ((createRigidShape w c m f r ty bd wd ht).1).type = ty := rfl

theorem createRigidShape_bounds (w : World) (c : Vec2) (m f r : ℝ) (ty : ShapeType)
    (bd wd ht : ℝ) : ((createRigidShape w c m f r ty bd wd ht).1).bounds = bd := rfl

theorem createRigidShape_friction (w : World) (c : Vec2) (m f r : ℝ) (ty : ShapeType)
    (bd wd ht : ℝ) : ((createRigidShape w c m f r ty bd wd ht).1).friction = f := rfl

theorem createRigidShape_restitution (w : World) (c : Vec2) (m f r : ℝ) (ty : ShapeType)
    (bd wd ht : ℝ) : ((createRigidShape w c m f r ty bd wd ht).1).restitution = r := rfl

theorem createRigidShape_pinned (w : World) (c : Vec2) (m f r : ℝ) (ty : ShapeType)
    (bd wd ht : ℝ) : ((createRigidShape w c m f r ty bd wd ht).1).pinned = false := rfl

theorem createRigidShape_inertia (w : World) (c : Vec2) (m f r : ℝ) (ty : ShapeType)
    (bd wd ht : ℝ) :
    ((createRigidShape w c m f r ty bd wd ht).1).inertia = calculateInertia ty m bd wd ht := rfl

theorem createRigidShape_angularVelocity (w : World) (c : Vec2) (m f r : ℝ) (ty : ShapeType)
    (bd wd ht : ℝ) : ((createRigidShape w c m f r ty bd wd ht).1).angularVelocity = 0 := rfl

theorem createRigidShape_vertices (w : World) (c : Vec2) (m f r : ℝ) (ty : ShapeType)
    (bd wd ht : ℝ) : ((createRigidShape w c m f r ty bd wd ht).1).vertices = quad
      ⟨c.x - wd / 2, c.y - ht / 2⟩ ⟨c.x + wd / 2, c.y - ht / 2⟩
      ⟨c.x + wd / 2, c.y + ht / 2⟩ ⟨c.x - wd / 2, c.y + ht / 2⟩ := rfl

@[simp] theorem quad_zero (a b c d : Vec2) : quad a b c d 0 = a := rfl

@[simp] theorem quad_one (a b c d : Vec2) : quad a b c d 1 = b := rfl

@[simp] theorem quad_two (a b c d : Vec2) : quad a b c d 2 = c := rfl

@[simp] theorem quad_three (a b c d : Vec2) : quad a b c d 3 = d := rfl

@[simp] theorem moveShape_mass (b : Body) (v : Vec2) : (moveShape b v).mass = b.mass := by
  unfold moveShape; split_ifs <;> rfl

@[simp] theorem moveShape_velocity (b : Body) (v : Vec2) :
    (moveShape b v).velocity = b.velocity := by
  unfold moveShape; split_ifs <;> rfl

@[simp] theorem moveShape_pinned (b : Body) (v : Vec2) : (moveShape b v).pinned = b.pinned := by
  unfold moveShape; split_ifs <;> rfl

@[simp] theorem moveShape_id (b : Body) (v : Vec2) : (moveShape b v).id = b.id := by
  unfold moveShape; split_ifs <;> rfl

theorem moveShape_center (b : Body) (v : Vec2) :
    (moveShape b v).center = if b.pinned then b.center else addVec2 b.center v := by
  unfold moveShape; split_ifs <;> rfl

@[simp] theorem moveShape_friction (b : Body) (v : Vec2) :
    (moveShape b v).friction = b.friction := by
  unfold moveShape; split_ifs <;> rfl

@[simp] theorem moveShape_restitution (b : Body) (v : Vec2) :
    (moveShape b v).restitution = b.restitution := by
  unfold moveShape; split_ifs <;> rfl

@[simp] theorem moveShape_inertia (b : Body) (v : Vec2) :
    (moveShape b v).inertia = b.inertia := by
  unfold moveShape; split_ifs <;> rfl

@[simp] theorem moveShape_angularVelocity (b : Body) (v : Vec2) :
    (moveShape b v).angularVelocity = b.angularVelocity := by
  unfold moveShape; split_ifs <;> rfl

@[simp] theorem rotateShape_center (b : Body) (a : ℝ) : (rotateShape b a).center = b.center := by
  unfold rotateShape; split_ifs <;> rfl

@[simp] theorem rotateShape_velocity (b : Body) (a : ℝ) :
    (rotateShape b a).velocity = b.velocity := by
  unfold rotateShape; split_ifs <;> rfl

@[simp] theorem rotateShape_mass (b : Body) (a : ℝ) : (rotateShape b a).mass = b.mass := by
  unfold rotateShape; split_ifs <;> rfl

@[simp] theorem rotateShape_pinned (b : Body) (a : ℝ) : (rotateShape b a).pinned = b.pinned := by
  unfold rotateShape; split_ifs <;> rfl

@[simp] theorem rotateShape_angle (b : Body) (a : ℝ) :
    (rotateShape b a).angle = b.angle + a := by
  unfold rotateShape; split_ifs <;> rfl

@[simp] theorem addVec2_zero (v : Vec2) : addVec2 v ⟨0, 0⟩ = v := by
  simp [addVec2]

@[simp] theorem scaleVec2_zero (v : Vec2) : scaleVec2 v 0 = ⟨0, 0⟩ := by
  simp [scaleVec2]

@[simp] theorem restUpdate_center (fps : ℝ) (b : Body) : (restUpdate fps b).center = b.center := by
  simp only [restUpdate]; split_ifs <;> rfl

@[simp] theorem restUpdate_velocity (fps : ℝ) (b : Body) :
    (restUpdate fps b).velocity = b.velocity := by
  simp only [restUpdate]; split_ifs <;> rfl

@[simp] theorem restUpdate_mass (fps : ℝ) (b : Body) : (restUpdate fps b).mass = b.mass := by
  simp only [restUpdate]; split_ifs <;> rfl

@[simp] theorem restUpdate_pinned (fps : ℝ) (b : Body) : (restUpdate fps b).pinned = b.pinned := by
  simp only [restUpdate]; split_ifs <;> rfl

/-- Claim C2: for every collision resolved inside worldStep between the
body at list index i and the body at list index j with i smaller than j,
the collision normal actually passed to resolveCollision satisfies
dot(normal, centerJ - centerI) nonnegative.  In the embedding, pairStep
passes exactly orientInfo info bi bj to resolveCollision, so the claim is
that the reoriented normal always has nonnegative dot product with the
vector from the first center toward the second. -/
theorem orientInfo_normal_nonneg (info : Collision) (bi bj : Body) :
    0 ≤ dotProduct (orientInfo info bi bj).normal (subtractVec2 bj.center bi.center) := by
  unfold orientInfo
  split_ifs with h
  · simp only [dotProduct, scaleVec2, subtractVec2, addVec2] at h ⊢
    nlinarith [h]
  · simpa using not_lt.mp h

/-- Claim C5: the spec says every public engine operation is total and in
particular getWorldBounds on a freshly created empty world returns a
definite bounding box.  The source guard tests the body array for
falsiness, which never holds for an array, so on the empty world the
source dereferences the center of an undefined first body and throws;
the embedding returns none there. -/
theorem getWorldBounds_createWorld_none : getWorldBounds createWorld = none := rfl

/-! Every collision record a narrow-phase test can return is built by
setCollisionInfo. -/

theorem falpAux_builds_sci (rect otherRect : Body) :
    ∀ (l : List (Fin 4)) (bd : ℝ) (best : Option (Fin 4 × Vec2)) (i : Collision),
      falpAux rect otherRect l bd best = some i → ∃ d n s, i = setCollisionInfo d n s := by
  intro l
  induction l with
  | nil =>
    intro bd best i h
    rcases best with _ | ⟨idx, sp⟩
    · simp only [falpAux, Option.some.injEq] at h
      exact ⟨_, _, _, h.symm⟩
    · simp only [falpAux, Option.some.injEq] at h
      exact ⟨_, _, _, h.symm⟩
  | cons a l ih =>
    intro bd best i h
    simp only [falpAux] at h
    rcases hs : supportOnB otherRect (scaleVec2 (rect.faceNormals a) (-1)) (rect.vertices a)
      with _ | ⟨sp, d⟩
    · rw [hs] at h; exact absurd h (by simp)
    · rw [hs] at h
      dsimp only at h
      by_cases hd : d < bd
      · rw [if_pos hd] at h; exact ih _ _ _ h
      · rw [if_neg hd] at h; exact ih _ _ _ h

theorem findAxisLeastPenetration_builds_sci (rect otherRect : Body) (i : Collision)
    (h : findAxisLeastPenetration rect otherRect = some i) : ∃ d n s, i = setCollisionInfo d n s :=
  falpAux_builds_sci rect otherRect _ _ _ i h

theorem circleCircleCollision_builds_sci (c1 c2 : Body) (i : Collision)
    (h : circleCircleCollision c1 c2 = some i) : ∃ d n s, i = setCollisionInfo d n s := by
  simp only [circleCircleCollision] at h
  split_ifs at h
  injection h with h; exact ⟨_, _, _, h.symm⟩

theorem rectRectCollision_builds_sci (c1 c2 : Body) (i : Collision)
    (h : rectRectCollision c1 c2 = some i) : ∃ d n s, i = setCollisionInfo d n s := by
  simp only [rectRectCollision] at h
  rcases h1 : findAxisLeastPenetration c1 c2 with _ | r1 <;> rw [h1] at h <;> dsimp only at h
  · exact Option.noConfusion h
  · rcases h2 : findAxisLeastPenetration c2 c1 with _ | r2 <;> rw [h2] at h <;> dsimp only at h
    · exact Option.noConfusion h
    · split_ifs at h
      · injection h with h; exact ⟨_, _, _, h.symm⟩
      · injection h with h; exact ⟨_, _, _, h.symm⟩

theorem rectCircleCollision_builds_sci (c1 c2 : Body) (i : Collision)
    (h : rectCircleCollision c1 c2 = some i) : ∃ d n s, i = setCollisionInfo d n s := by
  simp only [rectCircleCollision] at h
  split_ifs at h <;> (injection h with h; exact ⟨_, _, _, h.symm⟩)

theorem testCollision_builds_sci (c1 c2 : Body) (i : Collision)
    (h : testCollision c1 c2 = some i) : ∃ d n s, i = setCollisionInfo d n s := by
  simp only [testCollision] at h
  split_ifs at h
  cases ht1 : c1.type <;> cases ht2 : c2.type <;> rw [ht1, ht2] at h <;> dsimp only at h
  · exact circleCircleCollision_builds_sci _ _ _ h
  · exact rectCircleCollision_builds_sci _ _ _ h
  · exact rectCircleCollision_builds_sci _ _ _ h
  · exact rectRectCollision_builds_sci _ _ _ h

/-- Claim C10: every collision record produced by a successful
testCollision satisfies end = start + depth * normal, because every
record is built by setCollisionInfo, and the normal reorientation flip of
worldStep (negating the normal and swapping start with end) preserves
this equation. -/
theorem collision_segment_equation :
    (∀ c1 c2 i, testCollision c1 c2 = some i →
      i.endPoint = addVec2 i.start (scaleVec2 i.normal i.depth)) ∧
    (∀ (i : Collision) (bi bj : Body),
      i.endPoint = addVec2 i.start (scaleVec2 i.normal i.depth) →
      (orientInfo i bi bj).endPoint =
        addVec2 (orientInfo i bi bj).start
          (scaleVec2 (orientInfo i bi bj).normal (orientInfo i bi bj).depth)) := by
  constructor
  · intro c1 c2 i h
    obtain ⟨d, n, s, rfl⟩ := testCollision_builds_sci c1 c2 i h
    rfl
  · intro i bi bj h
    unfold orientInfo
    split_ifs with hflip
    · simp only [h]
      ext <;> simp [addVec2, scaleVec2]
    · exact h

/-! Evaluation helpers for square roots and the concrete fixtures. -/

theorem sqrtOfSq {a b : ℝ} (hb : 0 ≤ b) (h : a = b ^ 2) : Real.sqrt a = b := by
  rw [h]; exact Real.sqrt_sq hb

theorem cA_mass : cA.mass = 1 := by
  simp only [cA, createCircle, createRigidShape_mass]; norm_num

theorem cA_center : cA.center = ⟨0, 0⟩ := by
  simp only [cA, createCircle, createRigidShape_center]
  ext <;> norm_num [mathFloor]

theorem cA_velocity : cA.velocity = ⟨0, 0⟩ := by
  simp only [cA, createCircle, createRigidShape_velocity]

theorem cA_pinned : cA.pinned = false := by
  simp only [cA, createCircle, createRigidShape_pinned]

theorem cA_bounds : cA.bounds = 10 := by
  simp only [cA, createCircle, createRigidShape_bounds]; norm_num [mathFloor]

theorem cA_type : cA.type = ShapeType.CIRCLE := by
  simp only [cA, createCircle, createRigidShape_type]

theorem cB_mass : cB.mass = 1 := by
  simp only [cB, createCircle, createRigidShape_mass]; norm_num

theorem cB_center : cB.center = ⟨15, 0⟩ := by
  simp only [cB, createCircle, createRigidShape_center]
  ext <;> norm_num [mathFloor]

theorem cB_bounds : cB.bounds = 10 := by
  simp only [cB, createCircle, createRigidShape_bounds]; norm_num [mathFloor]

theorem cB_type : cB.type = ShapeType.CIRCLE := by
  simp only [cB, createCircle, createRigidShape_type]

theorem cC_mass : cC.mass = 1 := by
  simp only [cC, createCircle, createRigidShape_mass]; norm_num

theorem cC_center : cC.center = ⟨0, 0⟩ := by
  simp only [cC, createCircle, createRigidShape_center]
  ext <;> norm_num [mathFloor]

theorem cC_bounds : cC.bounds = 10 := by
  simp only [cC, createCircle, createRigidShape_bounds]; norm_num [mathFloor]

theorem cC_type : cC.type = ShapeType.CIRCLE := by
  simp only [cC, createCircle, createRigidShape_type]

theorem anchorBody_center : anchorBody.center = ⟨10, 0⟩ := by
  simp only [anchorBody, createCircle, createRigidShape_center]
  ext <;> norm_num [mathFloor]

theorem anchorBody_mass : anchorBody.mass = 0 := by
  simp only [anchorBody, createCircle, createRigidShape_mass]; norm_num

theorem pinnedBody_mass : pinnedBody.mass = 1 := rfl

theorem pinnedBody_pinned : pinnedBody.pinned = true := rfl

theorem pinnedBody_center : pinnedBody.center = ⟨0, 0⟩ := by
  simp only [pinnedBody, allowPinnedRotation, createCircle, createRigidShape_center]
  ext <;> norm_num [mathFloor]

theorem anchor_distance : lengthVec2 (subtractVec2 anchorBody.center cA.center) = 10 := by
  rw [anchorBody_center, cA_center]
  simp only [subtractVec2, addVec2, scaleVec2, lengthVec2, dotProduct]
  norm_num
  exact sqrtOfSq (by norm_num) (by norm_num)

theorem anchor_distance_pinned :
    lengthVec2 (subtractVec2 anchorBody.center pinnedBody.center) = 10 := by
  rw [anchorBody_center, pinnedBody_center]
  simp only [subtractVec2, addVec2, scaleVec2, lengthVec2, dotProduct]
  norm_num
  exact sqrtOfSq (by norm_num) (by norm_num)

/-- Claim C6 (amended): in the joint pass, for a body with nonzero
inverse mass whose joint endpoint resolves, when diff = length minus rest
distance is nonzero the correction vector is the vector to the other
endpoint scaled by (1/length) * diff * coefficient * (1 if the other body
is static else 0.5), with coefficient (1 - elasticity) for positive diff
and rigidity for negative diff; the body is moved by that vector unless
it is pinned, and correction times fps is added to its velocity in either
case. -/
theorem joint_correction_formula (fps : ℝ) (other : Body) (j : Joint) (b : Body)
    (hmass : b.mass ≠ 0)
    (hdiff : lengthVec2 (subtractVec2 other.center b.center) - j.distance ≠ 0) :
    (applyJoint fps other j b).center =
      (if b.pinned then b.center else addVec2 b.center (jointCorrection other j b)) ∧
    (applyJoint fps other j b).velocity =
      addVec2 b.velocity (scaleVec2 (jointCorrection other j b) fps) := by
  simp only [applyJoint, jointCorrection]
  rw [if_pos hdiff]
  by_cases hpos : lengthVec2 (subtractVec2 other.center b.center) - j.distance > 0
  · rw [if_pos hpos, if_pos hpos]
    exact ⟨by rw [moveShape_center], by rw [moveShape_velocity]⟩
  · rw [if_neg hpos, if_neg hpos]
    exact ⟨by rw [moveShape_center], by rw [moveShape_velocity]⟩

theorem jointCorrection_cA : jointCorrection anchorBody jointJ cA = ⟨5, 0⟩ := by
  simp only [jointCorrection, anchor_distance, jointJ, anchorBody_mass]
  rw [anchorBody_center, cA_center]
  simp only [subtractVec2, addVec2, scaleVec2]
  norm_num

theorem jointCorrection_pinnedBody :
    jointCorrection anchorBody jointJ pinnedBody = ⟨5, 0⟩ := by
  simp only [jointCorrection, anchor_distance_pinned, jointJ, anchorBody_mass]
  rw [anchorBody_center, pinnedBody_center]
  simp only [subtractVec2, addVec2, scaleVec2]
  norm_num

/-- Counterexample to claim C6 as stated: a pinned body with nonzero
inverse mass (made by allowPinnedRotation) satisfies all conditions of
the claim with a nonzero correction vector, yet its center is not moved
by the correction: moveShape ignores pinned bodies, only the velocity
nudge happens. -/
theorem joint_pinned_counterexample :
    pinnedBody.mass ≠ 0 ∧
    jointCorrection anchorBody jointJ pinnedBody ≠ ⟨0, 0⟩ ∧
    (applyJoint 60 anchorBody jointJ pinnedBody).center ≠
      addVec2 pinnedBody.center (jointCorrection anchorBody jointJ pinnedBody) := by
  refine ⟨by rw [pinnedBody_mass]; norm_num, ?_, ?_⟩
  · rw [jointCorrection_pinnedBody]
    intro h
    exact absurd (congrArg Vec2.x h) (by norm_num)
  · have hc : (applyJoint 60 anchorBody jointJ pinnedBody).center = pinnedBody.center := by
      simp only [applyJoint]
      split_ifs <;>
        simp_all [moveShape_center, pinnedBody_pinned]
    rw [hc, jointCorrection_pinnedBody, pinnedBody_center]
    intro h
    exact absurd (congrArg Vec2.x h) (by norm_num [addVec2])

/-- Witness for the amended claim C6 at a concrete stretched joint: a
movable circle at the origin joined with rest distance 5 to a static
anchor at (10, 0) is moved by (5, 0) and gains velocity (300, 0) at 60
frames per second. -/
theorem joint_correction_witness :
    (applyJoint 60 anchorBody jointJ cA).center = ⟨5, 0⟩ ∧
    (applyJoint 60 anchorBody jointJ cA).velocity = ⟨300, 0⟩ := by
  have hm : cA.mass ≠ 0 := by rw [cA_mass]; norm_num
  have hd : lengthVec2 (subtractVec2 anchorBody.center cA.center) - jointJ.distance ≠ 0 := by
    rw [anchor_distance]; simp only [jointJ]; norm_num
  have h := joint_correction_formula 60 anchorBody jointJ cA hm hd
  constructor
  · rw [h.1, cA_pinned, jointCorrection_cA, cA_center]
    simp [addVec2]
  · rw [h.2, jointCorrection_cA, cA_velocity]
    ext <;> norm_num [addVec2, scaleVec2]

/-! Vector evaluation helpers. -/

theorem subtractVec2_mk (a b c d : ℝ) : subtractVec2 ⟨a, b⟩ ⟨c, d⟩ = ⟨a - c, b - d⟩ := by
  ext <;> simp [subtractVec2, addVec2, scaleVec2] <;> ring

theorem lengthVec2_mk (x y : ℝ) : lengthVec2 ⟨x, y⟩ = Real.sqrt (x * x + y * y) := rfl

theorem normalize_eval (x y L : ℝ) (hL : Real.sqrt (x * x + y * y) = L) (h0 : L ≠ 0) :
    normalize ⟨x, y⟩ = ⟨x / L, y / L⟩ := by
  have hlen : lengthVec2 ⟨x, y⟩ = L := hL
  simp only [normalize, hlen, if_neg h0, scaleVec2]
  ext <;> simp <;> ring

theorem normalize_zero : normalize ⟨0, 0⟩ = ⟨0, 0⟩ := by
  ext <;> simp [normalize, scaleVec2]

theorem dotProduct_self_nonneg (v : Vec2) : 0 ≤ dotProduct v v := by
  simp only [dotProduct]
  nlinarith [mul_self_nonneg v.x, mul_self_nonneg v.y]

theorem dotProduct_self_pos (v : Vec2) (h : v ≠ ⟨0, 0⟩) : 0 < dotProduct v v := by
  rcases (dotProduct_self_nonneg v).lt_or_eq with h1 | h1
  · exact h1
  · exfalso
    apply h
    have hx : v.x * v.x = 0 := by
      simp only [dotProduct] at h1
      nlinarith [mul_self_nonneg v.x, mul_self_nonneg v.y]
    have hy : v.y * v.y = 0 := by
      simp only [dotProduct] at h1
      nlinarith [mul_self_nonneg v.x, mul_self_nonneg v.y]
    ext
    · exact mul_self_eq_zero.mp hx
    · exact mul_self_eq_zero.mp hy

theorem lengthVec2_pos (v : Vec2) (h : v ≠ ⟨0, 0⟩) : 0 < lengthVec2 v :=
  Real.sqrt_pos.mpr (dotProduct_self_pos v h)

theorem normalize_neg (v : Vec2) :
    normalize (scaleVec2 v (-1)) = scaleVec2 (normalize v) (-1) := by
  have hlen : lengthVec2 (scaleVec2 v (-1)) = lengthVec2 v := by
    simp only [lengthVec2, dotProduct, scaleVec2]
    ring_nf
  unfold normalize
  rw [hlen]
  ext <;> simp [scaleVec2] <;> ring

/-- Claim C7 (amended): for circles with nonnegative radius sum, at
least one of them movable, testCollision reports contact exactly when
the center distance is at most the radius sum; on contact the depth is
the radius sum minus the distance, the start point is the second center
offset by its radius along the reversed normal, the normal is the
normalized center difference, and whenever the centers are distinct that
normal is a unit vector that is a positive multiple of the vector from
the first center to the second.  When the centers coincide the normal
degenerates to the zero vector, which is what forces the amendment. -/
theorem circle_circle_contact (c1 c2 : Body)
    (h1 : c1.type = ShapeType.CIRCLE) (h2 : c2.type = ShapeType.CIRCLE)
    (hm : ¬(c1.mass = 0 ∧ c2.mass = 0))
    (hr : 0 ≤ c1.bounds + c2.bounds) :
    ((testCollision c1 c2).isSome ↔
      lengthVec2 (subtractVec2 c2.center c1.center) ≤ c1.bounds + c2.bounds) ∧
    (∀ i, testCollision c1 c2 = some i →
      i.depth = c1.bounds + c2.bounds - lengthVec2 (subtractVec2 c2.center c1.center) ∧
      i.normal = normalize (subtractVec2 c2.center c1.center) ∧
      i.start = subtractVec2 c2.center (scaleVec2 i.normal c2.bounds) ∧
      (subtractVec2 c2.center c1.center ≠ ⟨0, 0⟩ →
        dotProduct i.normal i.normal = 1 ∧
        i.normal = scaleVec2 (subtractVec2 c2.center c1.center)
          (1 / lengthVec2 (subtractVec2 c2.center c1.center)))) := by
  have hguard : Real.sqrt ((c1.bounds + c2.bounds) * (c1.bounds + c2.bounds)) =
      c1.bounds + c2.bounds := Real.sqrt_mul_self hr
  have htc : testCollision c1 c2 = circleCircleCollision c1 c2 := by
    simp only [testCollision, if_neg hm, h1, h2]
  constructor
  · rw [htc]
    simp only [circleCircleCollision, hguard]
    split_ifs with hle
    · simpa using hle
    · simpa using hle
  · intro i hi
    rw [htc] at hi
    simp only [circleCircleCollision, hguard] at hi
    split_ifs at hi with hle
    injection hi with hi
    subst hi
    have hnn : normalize (scaleVec2 (subtractVec2 c2.center c1.center) (-1)) =
        scaleVec2 (normalize (subtractVec2 c2.center c1.center)) (-1) :=
      normalize_neg _
    refine ⟨rfl, rfl, ?_, ?_⟩
    · simp only [setCollisionInfo, hnn]
      ext <;> simp [addVec2, scaleVec2, subtractVec2] <;> ring
    · intro hv
      have hlpos : 0 < lengthVec2 (subtractVec2 c2.center c1.center) := lengthVec2_pos _ hv
      have hlne : lengthVec2 (subtractVec2 c2.center c1.center) ≠ 0 := ne_of_gt hlpos
      have hsq : lengthVec2 (subtractVec2 c2.center c1.center) *
          lengthVec2 (subtractVec2 c2.center c1.center) =
          dotProduct (subtractVec2 c2.center c1.center) (subtractVec2 c2.center c1.center) :=
        Real.mul_self_sqrt (dotProduct_self_nonneg _)
      constructor
      · simp only [setCollisionInfo, normalize, if_neg hlne, dotProduct, scaleVec2]
        simp only [dotProduct] at hsq
        field_simp
        nlinarith [hsq]
      · simp only [setCollisionInfo, normalize, if_neg hlne, scaleVec2]

/-- Counterexample to claim C7 as stated: two congruent movable circles
created at the same center collide, but the stored normal is the zero
vector, not a unit normal pointing from the first circle toward the
second. -/
theorem circle_zero_normal_counterexample :
    testCollision cA cC = some ⟨20, ⟨0, 0⟩, ⟨0, 0⟩, ⟨0, 0⟩⟩ ∧
    dotProduct (Collision.normal ⟨20, ⟨0, 0⟩, ⟨0, 0⟩, ⟨0, 0⟩⟩)
      (Collision.normal ⟨20, ⟨0, 0⟩, ⟨0, 0⟩, ⟨0, 0⟩⟩) ≠ 1 := by
  constructor
  · have hm : ¬(cA.mass = 0 ∧ cC.mass = 0) := by
      rw [cA_mass]; intro h; exact absurd h.1 (by norm_num)
    have htc : testCollision cA cC = circleCircleCollision cA cC := by
      simp only [testCollision, if_neg hm, cA_type, cC_type]
    have hv : subtractVec2 cC.center cA.center = ⟨0, 0⟩ := by
      rw [cC_center, cA_center, subtractVec2_mk]; norm_num
    have hlen : lengthVec2 (⟨0, 0⟩ : Vec2) = 0 := by
      rw [lengthVec2_mk]
      rw [show (0:ℝ) * 0 + 0 * 0 = 0 by norm_num]
      exact Real.sqrt_zero
    have hz : scaleVec2 (⟨0, 0⟩ : Vec2) (-1) = ⟨0, 0⟩ := by ext <;> simp [scaleVec2]
    rw [htc]
    simp only [circleCircleCollision]
    rw [hv, hlen, cA_bounds, cC_bounds, cC_center, hz, normalize_zero]
    rw [if_pos (by positivity)]
    norm_num [setCollisionInfo, addVec2, scaleVec2]
  · simp [dotProduct]

/-- Witness for the amended claim C7: the two overlapping circles cA and
cB satisfy every hypothesis of the amended statement, and the theorem
applies to them. -/
theorem circle_circle_contact_witness :
    ((testCollision cA cB).isSome ↔
      lengthVec2 (subtractVec2 cB.center cA.center) ≤ cA.bounds + cB.bounds) ∧
    (∀ i, testCollision cA cB = some i →
      i.depth = cA.bounds + cB.bounds - lengthVec2 (subtractVec2 cB.center cA.center) ∧
      i.normal = normalize (subtractVec2 cB.center cA.center) ∧
      i.start = subtractVec2 cB.center (scaleVec2 i.normal cB.bounds) ∧
      (subtractVec2 cB.center cA.center ≠ ⟨0, 0⟩ →
        dotProduct i.normal i.normal = 1 ∧
        i.normal = scaleVec2 (subtractVec2 cB.center cA.center)
          (1 / lengthVec2 (subtractVec2 cB.center cA.center)))) :=
  circle_circle_contact cA cB cA_type cB_type
    (by rw [cA_mass]; intro h; exact absurd h.1 (by norm_num))
    (by rw [cA_bounds, cB_bounds]; norm_num)

/-- Concrete evaluation of the circle test on the overlapping circles cA
and cB: depth 5, normal (1,0), contact segment from (5,0) to (10,0). -/
theorem testCollision_cA_cB :
    testCollision cA cB = some ⟨5, ⟨1, 0⟩, ⟨5, 0⟩, ⟨10, 0⟩⟩ := by
  have hm : ¬(cA.mass = 0 ∧ cB.mass = 0) := by
    rw [cA_mass]; intro h; exact absurd h.1 (by norm_num)
  have htc : testCollision cA cB = circleCircleCollision cA cB := by
    simp only [testCollision, if_neg hm, cA_type, cB_type]
  have hv : subtractVec2 cB.center cA.center = ⟨15, 0⟩ := by
    rw [cB_center, cA_center, subtractVec2_mk]; norm_num
  have hlen : lengthVec2 (⟨15, 0⟩ : Vec2) = 15 := by
    rw [lengthVec2_mk]; exact sqrtOfSq (by norm_num) (by norm_num)
  have hneg : scaleVec2 (⟨15, 0⟩ : Vec2) (-1) = ⟨-15, 0⟩ := by
    ext <;> norm_num [scaleVec2]
  have hn1 : normalize (⟨15, 0⟩ : Vec2) = ⟨1, 0⟩ := by
    rw [normalize_eval 15 0 15 (sqrtOfSq (by norm_num) (by norm_num)) (by norm_num)]
    apply Vec2.ext <;> norm_num
  have hn2 : normalize (⟨-15, 0⟩ : Vec2) = ⟨-1, 0⟩ := by
    rw [normalize_eval (-15) 0 15 (sqrtOfSq (by norm_num) (by norm_num)) (by norm_num)]
    apply Vec2.ext <;> norm_num
  rw [htc]
  simp only [circleCircleCollision]
  rw [hv, hlen, cA_bounds, cB_bounds, cB_center, hneg, hn2, hn1]
  rw [if_pos (by
    rw [show ((10:ℝ) + 10) * (10 + 10) = 400 by norm_num,
      sqrtOfSq (show (0:ℝ) ≤ 20 by norm_num) (show (400:ℝ) = 20 ^ 2 by norm_num)]
    norm_num)]
  norm_num [setCollisionInfo, addVec2, scaleVec2, Collision.mk.injEq, Vec2.mk.injEq]

/-- Witness for claim C10: the contact record of the circles cA and cB
satisfies the segment equation, and after reorientation against the two
bodies it still does. -/
theorem collision_segment_equation_witness :
    (Collision.endPoint ⟨5, ⟨1, 0⟩, ⟨5, 0⟩, ⟨10, 0⟩⟩ =
      addVec2 (Collision.start ⟨5, ⟨1, 0⟩, ⟨5, 0⟩, ⟨10, 0⟩⟩)
        (scaleVec2 (Collision.normal ⟨5, ⟨1, 0⟩, ⟨5, 0⟩, ⟨10, 0⟩⟩)
          (Collision.depth ⟨5, ⟨1, 0⟩, ⟨5, 0⟩, ⟨10, 0⟩⟩))) ∧
    (orientInfo ⟨5, ⟨1, 0⟩, ⟨5, 0⟩, ⟨10, 0⟩⟩ cA cB).endPoint =
      addVec2 (orientInfo ⟨5, ⟨1, 0⟩, ⟨5, 0⟩, ⟨10, 0⟩⟩ cA cB).start
        (scaleVec2 (orientInfo ⟨5, ⟨1, 0⟩, ⟨5, 0⟩, ⟨10, 0⟩⟩ cA cB).normal
          (orientInfo ⟨5, ⟨1, 0⟩, ⟨5, 0⟩, ⟨10, 0⟩⟩ cA cB).depth) :=
  ⟨collision_segment_equation.1 cA cB _ testCollision_cA_cB,
   collision_segment_equation.2 ⟨5, ⟨1, 0⟩, ⟨5, 0⟩, ⟨10, 0⟩⟩ cA cB
     (by ext <;> norm_num [addVec2, scaleVec2])⟩

/-! Helpers for the single-body world step. -/

theorem scaleVec2_zeroVec (n : ℝ) : scaleVec2 ⟨0, 0⟩ n = ⟨0, 0⟩ := by
  ext <;> simp [scaleVec2]

theorem jointPassBody_nil (fps : ℝ) (bodies : List Body) (i : ℕ) :
    jointPassBody fps [] bodies i = bodies := by
  unfold jointPassBody
  rcases bodies[i]? with _ | b
  · rfl
  · dsimp only
    split_ifs
    · rfl
    · simp [List.filter]

theorem jointPass_nil (fps : ℝ) (bodies : List Body) : jointPass fps [] bodies = bodies := by
  unfold jointPass
  have hgen : ∀ (l : List ℕ) (bs : List Body), l.foldl (jointPassBody fps []) bs = bs := by
    intro l
    induction l with
    | nil => intro bs; rfl
    | cons a l ih =>
      intro bs
      rw [List.foldl_cons, jointPassBody_nil]
      exact ih bs
  exact hgen _ _

theorem pairList_one : pairList 1 = [(0, 0)] := rfl

theorem sweepOnce_single (w : World) (b : Body) : sweepOnce w [b] = ([b], false) := by
  unfold sweepOnce
  rw [show ([b] : List Body).length = 1 from rfl, pairList_one]
  rfl

theorem sweeps_single (w : World) (k : ℕ) (b : Body) : sweeps w (k + 1) [b] = [b] := by
  show (let r := sweepOnce w [b]; if r.2 then sweeps w k r.1 else r.1) = [b]
  rw [sweepOnce_single]
  simp

/-- Claim C8: for a world whose only body is movable (nonzero inverse
mass, not pinned) with zero acceleration, one worldStep at rate fps
leaves the velocity unchanged and moves the center by velocity over fps;
with a single body and no joints nothing else can alter it. -/
theorem integration_step (fps : ℝ) (w : World) (b : Body)
    (hw : w.bodies = [b]) (hj : w.joints = [])
    (hm : b.mass ≠ 0) (hp : b.pinned = false) (ha : b.acceleration = ⟨0, 0⟩)
    (hf : 0 < fps) :
    ∃ b2, (worldStep fps w).bodies = [b2] ∧
      b2.center = addVec2 b.center (scaleVec2 b.velocity (1 / fps)) ∧
      b2.velocity = b.velocity := by
  have hvel : (integrate fps b).velocity = b.velocity := by
    unfold integrate
    rw [if_pos hm]
    dsimp only
    rw [rotateShape_velocity, moveShape_velocity]
    rw [ha, scaleVec2_zeroVec, addVec2_zero]
  have hcen : (integrate fps b).center = addVec2 b.center (scaleVec2 b.velocity (1 / fps)) := by
    unfold integrate
    rw [if_pos hm]
    dsimp only
    rw [rotateShape_center, moveShape_center]
    have : ({ b with velocity := addVec2 b.velocity (scaleVec2 b.acceleration (1 / fps)) } :
        Body).pinned = false := hp
    rw [if_neg (by rw [this]; exact Bool.false_ne_true)]
    rw [ha, scaleVec2_zeroVec, addVec2_zero]
  unfold worldStep
  rw [hw, hj]
  simp only [List.map]
  rw [jointPass_nil, sweeps_single]
  refine ⟨restUpdate fps (integrate fps b), rfl, ?_, ?_⟩
  · rw [restUpdate_center, hcen]
  · rw [restUpdate_velocity, hvel]

/-! Friction cone: helper facts and the claim C3 family. -/

theorem dotProduct_tangent_nonpos (rv n : Vec2) (hn : dotProduct n n ≤ 1) :
    dotProduct rv (tangentOf rv n) ≤ 0 := by
  have hrv : 0 ≤ rv.x * rv.x + rv.y * rv.y := by
    nlinarith [mul_self_nonneg rv.x, mul_self_nonneg rv.y]
  have hn2 : n.x * n.x + n.y * n.y ≤ 1 := by
    simpa [dotProduct] using hn
  have hdotu : 0 ≤ dotProduct rv (subtractVec2 rv (scaleVec2 n (dotProduct rv n))) := by
    simp only [dotProduct, subtractVec2, addVec2, scaleVec2]
    have hcs : (rv.x * n.x + rv.y * n.y) ^ 2 ≤
        (rv.x * rv.x + rv.y * rv.y) * (n.x * n.x + n.y * n.y) := by
      nlinarith [sq_nonneg (rv.x * n.y - rv.y * n.x)]
    nlinarith [hcs, mul_nonneg hrv (by linarith : (0:ℝ) ≤ 1 - (n.x * n.x + n.y * n.y))]
  unfold tangentOf normalize
  set u := subtractVec2 rv (scaleVec2 n (dotProduct rv n)) with hu
  set D : ℝ := if lengthVec2 u = 0 then 1 else lengthVec2 u with hD
  have hDpos : 0 < D := by
    rw [hD]
    split_ifs with h0
    · norm_num
    · exact lt_of_le_of_ne (Real.sqrt_nonneg _) (Ne.symm h0)
  have heq : dotProduct rv (scaleVec2 (scaleVec2 u (1 / D)) (-1)) =
      -(1 / D) * dotProduct rv u := by
    simp only [dotProduct, scaleVec2]
    ring
  rw [heq]
  have h1D : 0 ≤ 1 / D := by positivity
  nlinarith [hdotu, h1D]

theorem jN_nonneg (s1 s2 : Body) (n p : Vec2)
    (hm1 : 0 ≤ s1.mass) (hm2 : 0 ≤ s2.mass) (hi1 : 0 ≤ s1.inertia) (hi2 : 0 ≤ s2.inertia)
    (hr1 : -1 ≤ s1.restitution) (hr2 : -1 ≤ s2.restitution)
    (hrel : dotProduct (relVel s1 s2 p) n ≤ 0) :
    0 ≤ jN s1 s2 n p := by
  have hrest : 0 ≤ 1 + min s1.restitution s2.restitution := by
    have := le_min hr1 hr2; linarith
  simp only [jN]
  apply div_nonneg
  · nlinarith [mul_nonneg hrest (neg_nonneg.mpr hrel)]
  · have h1 : 0 ≤ crossProduct (subtractVec2 p s1.center) n *
        crossProduct (subtractVec2 p s1.center) n * s1.inertia :=
      mul_nonneg (mul_self_nonneg _) hi1
    have h2 : 0 ≤ crossProduct (subtractVec2 p s2.center) n *
        crossProduct (subtractVec2 p s2.center) n * s2.inertia :=
      mul_nonneg (mul_self_nonneg _) hi2
    linarith

theorem jTraw_nonneg (s1 s2 : Body) (n p : Vec2)
    (hm1 : 0 ≤ s1.mass) (hm2 : 0 ≤ s2.mass) (hi1 : 0 ≤ s1.inertia) (hi2 : 0 ≤ s2.inertia)
    (hf1 : 0 ≤ s1.friction) (hf2 : 0 ≤ s2.friction)
    (hr1 : -1 ≤ s1.restitution) (hr2 : -1 ≤ s2.restitution)
    (hn : dotProduct n n ≤ 1) :
    0 ≤ jTraw s1 s2 n p := by
  have hrest : 0 ≤ 1 + min s1.restitution s2.restitution := by
    have := le_min hr1 hr2; linarith
  have hfr : 0 ≤ min s1.friction s2.friction := le_min hf1 hf2
  have htan : dotProduct (relVel s1 s2 p) (tangentOf (relVel s1 s2 p) n) ≤ 0 :=
    dotProduct_tangent_nonpos _ _ hn
  simp only [jTraw]
  apply div_nonneg
  · nlinarith [mul_nonneg (mul_nonneg hrest (neg_nonneg.mpr htan)) hfr]
  · have h1 : 0 ≤ crossProduct (subtractVec2 p s1.center)
        (tangentOf (relVel s1 s2 p) n) *
        crossProduct (subtractVec2 p s1.center) (tangentOf (relVel s1 s2 p) n) * s1.inertia :=
      mul_nonneg (mul_self_nonneg _) hi1
    have h2 : 0 ≤ crossProduct (subtractVec2 p s2.center)
        (tangentOf (relVel s1 s2 p) n) *
        crossProduct (subtractVec2 p s2.center) (tangentOf (relVel s1 s2 p) n) * s2.inertia :=
      mul_nonneg (mul_self_nonneg _) hi2
    linarith

/-- Claim C3 (amended): in resolveCollision, for bodies with nonnegative
inverse masses, inverse inertias, friction and restitution coefficients
at least -1, a normal of length at most one, and a non-separating
relative velocity at the contact point (the state in which the
tangential-impulse stage runs), the applied friction impulse satisfies
0 <= jT <= jN, hence its magnitude never exceeds the normal impulse.
The unqualified claim is false because the source clamps jT only from
above; a sufficiently negative friction coefficient drives jT below
-|jN|. -/
theorem friction_impulse_clamped (s1 s2 : Body) (n p : Vec2)
    (hm1 : 0 ≤ s1.mass) (hm2 : 0 ≤ s2.mass)
    (hi1 : 0 ≤ s1.inertia) (hi2 : 0 ≤ s2.inertia)
    (hf1 : 0 ≤ s1.friction) (hf2 : 0 ≤ s2.friction)
    (hr1 : -1 ≤ s1.restitution) (hr2 : -1 ≤ s2.restitution)
    (hn : dotProduct n n ≤ 1)
    (hrel : dotProduct (relVel s1 s2 p) n ≤ 0) :
    |jTval s1 s2 n p| ≤ |jN s1 s2 n p| := by
  have hjN : 0 ≤ jN s1 s2 n p := jN_nonneg s1 s2 n p hm1 hm2 hi1 hi2 hr1 hr2 hrel
  have hjT : 0 ≤ jTraw s1 s2 n p := jTraw_nonneg s1 s2 n p hm1 hm2 hi1 hi2 hf1 hf2 hr1 hr2 hn
  unfold jTval
  split_ifs with hcl
  · exact le_refl _
  · rw [abs_of_nonneg hjT, abs_of_nonneg hjN]
    exact not_lt.mp hcl

theorem cA_friction : cA.friction = 0 := by
  simp only [cA, createCircle, createRigidShape_friction]

theorem cA_restitution : cA.restitution = 1 := by
  simp only [cA, createCircle, createRigidShape_restitution]

theorem cA_inertia : cA.inertia = 25 / 3 := by
  simp only [cA, createCircle, createRigidShape_inertia, calculateInertia]
  norm_num [mathFloor]

theorem cA_angularVelocity : cA.angularVelocity = 0 := by
  simp only [cA, createCircle, createRigidShape_angularVelocity]

theorem cB_velocity : cB.velocity = ⟨0, 0⟩ := by
  simp only [cB, createCircle, createRigidShape_velocity]

theorem cB_friction : cB.friction = 0 := by
  simp only [cB, createCircle, createRigidShape_friction]

theorem cB_restitution : cB.restitution = 1 := by
  simp only [cB, createCircle, createRigidShape_restitution]

theorem cB_inertia : cB.inertia = 25 / 3 := by
  simp only [cB, createCircle, createRigidShape_inertia, calculateInertia]
  norm_num [mathFloor]

theorem cB_angularVelocity : cB.angularVelocity = 0 := by
  simp only [cB, createCircle, createRigidShape_angularVelocity]

theorem fA_mass : fA.mass = 1 := by
  show (createCircle createWorld ⟨0, 0⟩ 10 1 (-1000000) 0).1.mass = 1
  rw [createCircle, createRigidShape_mass]; norm_num

theorem fA_center : fA.center = ⟨0, 0⟩ := by
  show (createCircle createWorld ⟨0, 0⟩ 10 1 (-1000000) 0).1.center = ⟨0, 0⟩
  rw [createCircle, createRigidShape_center]
  ext <;> norm_num [mathFloor]

theorem fA_velocity : fA.velocity = ⟨1, 1⟩ := rfl

theorem fA_friction : fA.friction = -1000000 := by
  show (createCircle createWorld ⟨0, 0⟩ 10 1 (-1000000) 0).1.friction = -1000000
  rw [createCircle, createRigidShape_friction]

theorem fA_restitution : fA.restitution = 0 := by
  show (createCircle createWorld ⟨0, 0⟩ 10 1 (-1000000) 0).1.restitution = 0
  rw [createCircle, createRigidShape_restitution]

theorem fA_inertia : fA.inertia = 25 / 3 := by
  show (createCircle createWorld ⟨0, 0⟩ 10 1 (-1000000) 0).1.inertia = 25 / 3
  rw [createCircle, createRigidShape_inertia]
  norm_num [calculateInertia, mathFloor]

theorem fA_angularVelocity : fA.angularVelocity = 0 := by
  show (createCircle createWorld ⟨0, 0⟩ 10 1 (-1000000) 0).1.angularVelocity = 0
  rw [createCircle, createRigidShape_angularVelocity]

theorem fA_pinned : fA.pinned = false := by
  show (createCircle createWorld ⟨0, 0⟩ 10 1 (-1000000) 0).1.pinned = false
  rw [createCircle, createRigidShape_pinned]

theorem fB_mass : fB.mass = 1 := by
  simp only [fB, createCircle, createRigidShape_mass]; norm_num

theorem fB_center : fB.center = ⟨15, 0⟩ := by
  simp only [fB, createCircle, createRigidShape_center]
  ext <;> norm_num [mathFloor]

theorem fB_velocity : fB.velocity = ⟨0, 0⟩ := by
  simp only [fB, createCircle, createRigidShape_velocity]

theorem fB_friction : fB.friction = -1000000 := by
  simp only [fB, createCircle, createRigidShape_friction]

theorem fB_restitution : fB.restitution = 0 := by
  simp only [fB, createCircle, createRigidShape_restitution]

theorem fB_inertia : fB.inertia = 25 / 3 := by
  simp only [fB, createCircle, createRigidShape_inertia]
  norm_num [calculateInertia, mathFloor]

theorem fB_angularVelocity : fB.angularVelocity = 0 := by
  simp only [fB, createCircle, createRigidShape_angularVelocity]

theorem fB_pinned : fB.pinned = false := by
  simp only [fB, createCircle, createRigidShape_pinned]

theorem fCorr : correctionAmount fA fB fInfo = ⟨2, 0⟩ := by
  simp only [correctionAmount, fInfo]
  rw [fA_mass, fB_mass]
  ext <;> norm_num [scaleVec2]

theorem fA1_center : fA1.center = ⟨-2, 0⟩ := by
  rw [fA1, moveShape_center, fA_pinned]
  rw [if_neg Bool.false_ne_true, fCorr, fA_mass, fA_center]
  ext <;> norm_num [addVec2, scaleVec2]

theorem fB1_center : fB1.center = ⟨17, 0⟩ := by
  rw [fB1, moveShape_center, fB_pinned]
  rw [if_neg Bool.false_ne_true, fCorr, fB_mass, fB_center]
  ext <;> norm_num [addVec2, scaleVec2]

theorem fA1_mass : fA1.mass = 1 := by rw [fA1, moveShape_mass, fA_mass]

theorem fB1_mass : fB1.mass = 1 := by rw [fB1, moveShape_mass, fB_mass]

theorem fA1_velocity : fA1.velocity = ⟨1, 1⟩ := by rw [fA1, moveShape_velocity, fA_velocity]

theorem fB1_velocity : fB1.velocity = ⟨0, 0⟩ := by rw [fB1, moveShape_velocity, fB_velocity]

theorem fA1_inertia : fA1.inertia = 25 / 3 := by rw [fA1, moveShape_inertia, fA_inertia]

theorem fB1_inertia : fB1.inertia = 25 / 3 := by rw [fB1, moveShape_inertia, fB_inertia]

theorem fA1_friction : fA1.friction = -1000000 := by rw [fA1, moveShape_friction, fA_friction]

theorem fB1_friction : fB1.friction = -1000000 := by rw [fB1, moveShape_friction, fB_friction]

theorem fA1_restitution : fA1.restitution = 0 := by
  rw [fA1, moveShape_restitution, fA_restitution]

theorem fB1_restitution : fB1.restitution = 0 := by
  rw [fB1, moveShape_restitution, fB_restitution]

theorem fA1_angularVelocity : fA1.angularVelocity = 0 := by
  rw [fA1, moveShape_angularVelocity, fA_angularVelocity]

theorem fB1_angularVelocity : fB1.angularVelocity = 0 := by
  rw [fB1, moveShape_angularVelocity, fB_angularVelocity]

theorem fP_eval : fP = ⟨15 / 2, 0⟩ := by
  rw [fP, contactPoint, fA1_mass, fB1_mass]
  simp only [fInfo]
  ext <;> norm_num [addVec2, scaleVec2]

theorem fRelVel : relVel fA1 fB1 fP = ⟨-1, -1⟩ := by
  simp only [relVel, pointVelocity]
  rw [fA1_velocity, fB1_velocity, fA1_angularVelocity, fB1_angularVelocity]
  ext <;> norm_num [addVec2, subtractVec2, scaleVec2]

theorem fJN : jN fA1 fB1 fInfo.normal fP = 1 / 2 := by
  simp only [jN]
  rw [fRelVel, fP_eval, fA1_center, fB1_center, fA1_mass, fB1_mass, fA1_inertia, fB1_inertia,
    fA1_restitution, fB1_restitution]
  simp only [fInfo]
  norm_num [dotProduct, crossProduct, subtractVec2, addVec2, scaleVec2, min_self]

theorem fTangent : tangentOf (relVel fA1 fB1 fP) fInfo.normal = ⟨0, 1⟩ := by
  rw [fRelVel]
  simp only [fInfo]
  unfold tangentOf
  have hu : subtractVec2 ⟨-1, -1⟩
      (scaleVec2 ⟨1, 0⟩ (dotProduct ⟨-1, -1⟩ ⟨1, 0⟩)) = (⟨0, -1⟩ : Vec2) := by
    ext <;> norm_num [subtractVec2, addVec2, scaleVec2, dotProduct]
  rw [hu]
  rw [normalize_eval 0 (-1) 1
    (by rw [show (0:ℝ) * 0 + (-1) * (-1) = 1 by norm_num]; exact Real.sqrt_one)
    (by norm_num)]
  ext <;> norm_num [scaleVec2]

theorem fJTraw : jTraw fA1 fB1 fInfo.normal fP = -(6000000 / 9037) := by
  simp only [jTraw]
  rw [fTangent, fRelVel, fP_eval, fA1_center, fB1_center, fA1_mass, fB1_mass,
    fA1_inertia, fB1_inertia, fA1_restitution, fB1_restitution, fA1_friction, fB1_friction]
  norm_num [dotProduct, crossProduct, subtractVec2, addVec2, scaleVec2, min_self]

theorem fJTval : jTval fA1 fB1 fInfo.normal fP = -(6000000 / 9037) := by
  unfold jTval
  rw [fJTraw, fJN]
  rw [if_neg (by norm_num)]

/-- Counterexample to claim C3 as stated: the factories accept any
friction coefficient, and with friction minus one million on both
circles the tangential-impulse stage of resolveCollision is reached (the
call returns true) while the applied friction impulse jT is about -664,
far larger in magnitude than the normal impulse jN = 1/2.  The source
clamps jT only from above, never from below. -/
theorem friction_clamp_counterexample :
    ¬(fA.mass = 0 ∧ fB.mass = 0) ∧
    lengthVec2 (correctionAmount fA fB fInfo) ≠ 0 ∧
    dotProduct (relVel fA1 fB1 fP) fInfo.normal ≤ 0 ∧
    (resolveCollision createWorld fA fB fInfo).2.2 = true ∧
    |jN fA1 fB1 fInfo.normal fP| < |jTval fA1 fB1 fInfo.normal fP| := by
  have hm : ¬(fA.mass = 0 ∧ fB.mass = 0) := by
    rw [fA_mass]; intro h; exact absurd h.1 one_ne_zero
  have hlen : lengthVec2 (correctionAmount fA fB fInfo) = 2 := by
    rw [fCorr, lengthVec2_mk]; exact sqrtOfSq (by norm_num) (by norm_num)
  have hdot : dotProduct (relVel fA1 fB1 fP) fInfo.normal = -1 := by
    rw [fRelVel]; simp only [fInfo]; norm_num [dotProduct]
  refine ⟨hm, by rw [hlen]; norm_num, by rw [hdot]; norm_num, ?_, ?_⟩
  · simp only [resolveCollision]
    rw [if_neg hm, hlen]
    rw [if_neg (by norm_num : ¬(2:ℝ) = 0)]
    have e1 : moveShape fA (scaleVec2 (correctionAmount fA fB fInfo) (-fA.mass)) = fA1 := rfl
    have e2 : moveShape fB (scaleVec2 (correctionAmount fA fB fInfo) fB.mass) = fB1 := rfl
    rw [e1, e2]
    have e3 : contactPoint fA1 fB1 fInfo = fP := rfl
    rw [e3, hdot]
    rw [if_neg (by norm_num : ¬(-1:ℝ) > 0)]
  · rw [fJN, fJTval]
    have h1 : |(1:ℝ) / 2| = 1 / 2 := abs_of_nonneg (by norm_num)
    have h2 : |(-(6000000 / 9037) : ℝ)| = 6000000 / 9037 := by
      rw [abs_neg]; exact abs_of_nonneg (by norm_num)
    rw [h1, h2]
    norm_num

/-- Witness for the amended claim C3: the two overlapping circles cA and
cB with their standard coefficients, unit normal (1,0), contact at the
origin, satisfy every hypothesis, and the clamped friction impulse is
bounded by the normal impulse in magnitude. -/
theorem friction_impulse_clamped_witness :
    |jTval cA cB ⟨1, 0⟩ ⟨0, 0⟩| ≤ |jN cA cB ⟨1, 0⟩ ⟨0, 0⟩| :=
  friction_impulse_clamped cA cB ⟨1, 0⟩ ⟨0, 0⟩
    (by rw [cA_mass]; norm_num) (by rw [cB_mass]; norm_num)
    (by rw [cA_inertia]; norm_num) (by rw [cB_inertia]; norm_num)
    (by rw [cA_friction]) (by rw [cB_friction])
    (by rw [cA_restitution]; norm_num) (by rw [cB_restitution]; norm_num)
    (by norm_num [dotProduct])
    (by
      have hrv : relVel cA cB ⟨0, 0⟩ = ⟨0, 0⟩ := by
        simp only [relVel, pointVelocity]
        rw [cA_velocity, cB_velocity, cA_angularVelocity, cB_angularVelocity]
        ext <;> norm_num [addVec2, subtractVec2, scaleVec2]
      rw [hrv]
      norm_num [dotProduct])

theorem freeBody_mass : freeBody.mass = 1 := by
  show (createCircle createWorld ⟨0, 0⟩ 10 1 0 0).1.mass = 1
  rw [createCircle, createRigidShape_mass]; norm_num

theorem freeBody_pinned : freeBody.pinned = false := by
  show (createCircle createWorld ⟨0, 0⟩ 10 1 0 0).1.pinned = false
  rw [createCircle, createRigidShape_pinned]

/-! Preservation machinery: static and pinned bodies through the phases
of worldStep. -/

theorem foldl_preserve {α β : Type} (P : β → Prop) (f : β → α → β)
    (hstep : ∀ s a, P s → P (f s a)) :
    ∀ (l : List α) (s : β), P s → P (l.foldl f s) := by
  intro l
  induction l with
  | nil => intro s hs; exact hs
  | cons a l ih =>
    intro s hs
    rw [List.foldl_cons]
    exact ih _ (hstep s a hs)

theorem moveShape_pinned_id (b : Body) (v : Vec2) (h : b.pinned = true) : moveShape b v = b := by
  unfold moveShape
  rw [if_pos h]

theorem integrate_static (fps : ℝ) (b : Body) (hm : b.mass = 0) : integrate fps b = b := by
  unfold integrate
  rw [if_neg (by simp [hm])]

theorem integrate_pinned (fps : ℝ) (b : Body) (h : b.pinned = true) :
    (integrate fps b).center = b.center ∧ (integrate fps b).pinned = true := by
  unfold integrate
  split_ifs with hm
  · dsimp only
    constructor
    · rw [rotateShape_center, moveShape_center]
      split_ifs with hp
      · rfl
      · exact absurd h (by simpa using hp)
    · rw [rotateShape_pinned, moveShape_pinned]
      exact h
  · exact ⟨rfl, h⟩

theorem applyJoint_mass (fps : ℝ) (other : Body) (j : Joint) (b : Body) :
    (applyJoint fps other j b).mass = b.mass := by
  simp only [applyJoint]
  split_ifs <;> simp

theorem applyJoint_pinned (fps : ℝ) (other : Body) (j : Joint) (b : Body) :
    (applyJoint fps other j b).pinned = b.pinned := by
  simp only [applyJoint]
  split_ifs <;> simp

theorem applyJoint_center_pinned (fps : ℝ) (other : Body) (j : Joint) (b : Body)
    (h : b.pinned = true) : (applyJoint fps other j b).center = b.center := by
  simp only [applyJoint]
  split_ifs <;> simp [moveShape_center, h]

theorem jointStepOnce_getElem_ne (fps : ℝ) (i : ℕ) (bodies : List Body) (joint : Joint)
    (t : ℕ) (hne : i ≠ t) : (jointStepOnce fps i bodies joint)[t]? = bodies[t]? := by
  unfold jointStepOnce
  split <;>
    first
      | rfl
      | (dsimp only
         split
         · rfl
         · exact List.getElem?_set_ne hne)

theorem jointStepOnce_preserves_pinnedAt (fps : ℝ) (i : ℕ) (t : ℕ) (c : Vec2)
    (bodies : List Body) (joint : Joint) (h : pinnedAt t c bodies) :
    pinnedAt t c (jointStepOnce fps i bodies joint) := by
  by_cases hit : i = t
  · subst hit
    obtain ⟨b, hb, hp, hc⟩ := h
    unfold jointStepOnce
    rw [hb]
    dsimp only
    split
    · exact ⟨b, hb, hp, hc⟩
    · rename_i other hother
      refine ⟨applyJoint fps other joint b, ?_, ?_, ?_⟩
      · rw [List.getElem?_set_self (List.getElem?_eq_some.mp hb).1]
      · rw [applyJoint_pinned]; exact hp
      · rw [applyJoint_center_pinned _ _ _ _ hp]; exact hc
  · obtain ⟨b, hb, hp, hc⟩ := h
    exact ⟨b, by rw [jointStepOnce_getElem_ne fps i bodies joint t hit]; exact hb, hp, hc⟩

theorem jointStepOnce_preserves_ne (fps : ℝ) (i t : ℕ) (c : Vec2)
    (bodies : List Body) (joint : Joint) (hne : i ≠ t) (h : staticAt t c bodies) :
    staticAt t c (jointStepOnce fps i bodies joint) := by
  obtain ⟨b, hb, h1, h2, h3⟩ := h
  exact ⟨b, by rw [jointStepOnce_getElem_ne fps i bodies joint t hne]; exact hb, h1, h2, h3⟩

theorem jointPassBody_preserves_staticAt (fps : ℝ) (joints : List Joint) (t : ℕ) (c : Vec2)
    (bodies : List Body) (i : ℕ) (h : staticAt t c bodies) :
    staticAt t c (jointPassBody fps joints bodies i) := by
  unfold jointPassBody
  split
  · exact h
  · rename_i b0 hb0
    split_ifs with hm0
    · exact h
    · have hne : i ≠ t := by
        intro hit
        subst hit
        obtain ⟨b, hb, h1, _, _⟩ := h
        rw [hb0] at hb
        injection hb with hb
        exact hm0 (hb ▸ h1)
      exact foldl_preserve (staticAt t c) (jointStepOnce fps i)
        (fun s a hs => jointStepOnce_preserves_ne fps i t c s a hne hs) _ bodies h

theorem jointPassBody_preserves_pinnedAt (fps : ℝ) (joints : List Joint) (t : ℕ) (c : Vec2)
    (bodies : List Body) (i : ℕ) (h : pinnedAt t c bodies) :
    pinnedAt t c (jointPassBody fps joints bodies i) := by
  unfold jointPassBody
  split
  · exact h
  · split_ifs
    · exact h
    · exact foldl_preserve (pinnedAt t c) (jointStepOnce fps i)
        (fun s a hs => jointStepOnce_preserves_pinnedAt fps i t c s a hs) _ bodies h

theorem jointPass_preserves_staticAt (fps : ℝ) (joints : List Joint) (t : ℕ) (c : Vec2)
    (bodies : List Body) (h : staticAt t c bodies) :
    staticAt t c (jointPass fps joints bodies) :=
  foldl_preserve (staticAt t c) (jointPassBody fps joints)
    (fun s a hs => jointPassBody_preserves_staticAt fps joints t c s a hs) _ bodies h

theorem jointPass_preserves_pinnedAt (fps : ℝ) (joints : List Joint) (t : ℕ) (c : Vec2)
    (bodies : List Body) (h : pinnedAt t c bodies) :
    pinnedAt t c (jointPass fps joints bodies) :=
  foldl_preserve (pinnedAt t c) (jointPassBody fps joints)
    (fun s a hs => jointPassBody_preserves_pinnedAt fps joints t c s a hs) _ bodies h

theorem velocityResolution_center_fst (w : World) (s1 s2 : Body) (info : Collision) :
    (velocityResolution w s1 s2 info).1.center = s1.center := by
  simp only [velocityResolution]
  split_ifs <;> rfl

theorem velocityResolution_center_snd (w : World) (s1 s2 : Body) (info : Collision) :
    (velocityResolution w s1 s2 info).2.center = s2.center := by
  simp only [velocityResolution]
  split_ifs <;> rfl

theorem velocityResolution_mass_fst (w : World) (s1 s2 : Body) (info : Collision) :
    (velocityResolution w s1 s2 info).1.mass = s1.mass := by
  simp only [velocityResolution]
  split_ifs <;> rfl

theorem velocityResolution_mass_snd (w : World) (s1 s2 : Body) (info : Collision) :
    (velocityResolution w s1 s2 info).2.mass = s2.mass := by
  simp only [velocityResolution]
  split_ifs <;> rfl

theorem velocityResolution_pinned_fst (w : World) (s1 s2 : Body) (info : Collision) :
    (velocityResolution w s1 s2 info).1.pinned = s1.pinned := by
  simp only [velocityResolution]
  split_ifs <;> rfl

theorem velocityResolution_pinned_snd (w : World) (s1 s2 : Body) (info : Collision) :
    (velocityResolution w s1 s2 info).2.pinned = s2.pinned := by
  simp only [velocityResolution]
  split_ifs <;> rfl

theorem velocityResolution_velocity_fst_static (w : World) (s1 s2 : Body) (info : Collision)
    (hm : s1.mass = 0) (hv : s1.velocity = ⟨0, 0⟩) :
    (velocityResolution w s1 s2 info).1.velocity = ⟨0, 0⟩ := by
  simp only [velocityResolution]
  rw [hm, hv]
  split_ifs <;> ext <;> simp [subtractVec2, addVec2, scaleVec2]

theorem velocityResolution_velocity_snd_static (w : World) (s1 s2 : Body) (info : Collision)
    (hm : s2.mass = 0) (hv : s2.velocity = ⟨0, 0⟩) :
    (velocityResolution w s1 s2 info).2.velocity = ⟨0, 0⟩ := by
  simp only [velocityResolution]
  rw [hm, hv]
  split_ifs <;> ext <;> simp [subtractVec2, addVec2, scaleVec2]

theorem resolveCollision_static_fst (w : World) (s1 s2 : Body) (info : Collision)
    (hm : s1.mass = 0) (hv : s1.velocity = ⟨0, 0⟩) :
    (resolveCollision w s1 s2 info).1.center = s1.center ∧
    (resolveCollision w s1 s2 info).1.velocity = ⟨0, 0⟩ ∧
    (resolveCollision w s1 s2 info).1.mass = 0 := by
  have hmove : ∀ v : Vec2, (moveShape s1 (scaleVec2 v (-s1.mass))).center = s1.center := by
    intro v
    rw [hm, neg_zero, scaleVec2_zero, moveShape_center]
    split_ifs
    · rfl
    · exact addVec2_zero _
  simp only [resolveCollision]
  split_ifs with h1 h2 h3
  · exact ⟨rfl, hv, hm⟩
  · exact ⟨rfl, hv, hm⟩
  · refine ⟨hmove _, ?_, ?_⟩
    · rw [moveShape_velocity]; exact hv
    · rw [moveShape_mass]; exact hm
  · refine ⟨?_, ?_, ?_⟩
    · rw [velocityResolution_center_fst, hmove]
    · exact velocityResolution_velocity_fst_static _ _ _ _
        (by rw [moveShape_mass]; exact hm) (by rw [moveShape_velocity]; exact hv)
    · rw [velocityResolution_mass_fst, moveShape_mass]; exact hm

theorem resolveCollision_static_snd (w : World) (s1 s2 : Body) (info : Collision)
    (hm : s2.mass = 0) (hv : s2.velocity = ⟨0, 0⟩) :
    (resolveCollision w s1 s2 info).2.1.center = s2.center ∧
    (resolveCollision w s1 s2 info).2.1.velocity = ⟨0, 0⟩ ∧
    (resolveCollision w s1 s2 info).2.1.mass = 0 := by
  have hmove : (moveShape s2 (scaleVec2 (correctionAmount s1 s2 info) s2.mass)).center =
      s2.center := by
    rw [hm, scaleVec2_zero, moveShape_center]
    split_ifs
    · rfl
    · exact addVec2_zero _
  simp only [resolveCollision]
  split_ifs with h1 h2 h3
  · exact ⟨rfl, hv, hm⟩
  · exact ⟨rfl, hv, hm⟩
  · refine ⟨hmove, ?_, ?_⟩
    · rw [moveShape_velocity]; exact hv
    · rw [moveShape_mass]; exact hm
  · refine ⟨?_, ?_, ?_⟩
    · rw [velocityResolution_center_snd, hmove]
    · exact velocityResolution_velocity_snd_static _ _ _ _
        (by rw [moveShape_mass]; exact hm) (by rw [moveShape_velocity]; exact hv)
    · rw [velocityResolution_mass_snd, moveShape_mass]; exact hm

theorem resolveCollision_pinned_fst (w : World) (s1 s2 : Body) (info : Collision)
    (hp : s1.pinned = true) :
    (resolveCollision w s1 s2 info).1.center = s1.center ∧
    (resolveCollision w s1 s2 info).1.pinned = true := by
  simp only [resolveCollision]
  split_ifs with h1 h2 h3
  · exact ⟨rfl, hp⟩
  · exact ⟨rfl, hp⟩
  · rw [moveShape_pinned_id _ _ hp]; exact ⟨rfl, hp⟩
  · rw [moveShape_pinned_id _ _ hp]
    exact ⟨velocityResolution_center_fst _ _ _ _,
      by rw [velocityResolution_pinned_fst]; exact hp⟩

theorem resolveCollision_pinned_snd (w : World) (s1 s2 : Body) (info : Collision)
    (hp : s2.pinned = true) :
    (resolveCollision w s1 s2 info).2.1.center = s2.center ∧
    (resolveCollision w s1 s2 info).2.1.pinned = true := by
  simp only [resolveCollision]
  split_ifs with h1 h2 h3
  · exact ⟨rfl, hp⟩
  · exact ⟨rfl, hp⟩
  · rw [moveShape_pinned_id _ _ hp]; exact ⟨rfl, hp⟩
  · rw [moveShape_pinned_id _ _ hp]
    exact ⟨velocityResolution_center_snd _ _ _ _,
      by rw [velocityResolution_pinned_snd]; exact hp⟩

theorem pairStep_preserves_staticAt (w : World) (ij : ℕ × ℕ) (t : ℕ) (c : Vec2)
    (st : List Body × Bool) (h : staticAt t c st.1) : staticAt t c (pairStep w st ij).1 := by
  unfold pairStep
  split_ifs with hij
  · exact h
  · split
    · rename_i bi bj hbi hbj
      split_ifs with hmm hbt
      · exact h
      · split
        · rename_i info hinfo
          dsimp only
          obtain ⟨b, hb, h1, h2, h3⟩ := h
          by_cases hti : t = ij.1
          · subst hti
            have hbeq : bi = b := by rw [hbi] at hb; injection hb
            subst hbeq
            have hlt := (List.getElem?_eq_some.mp hb).1
            refine ⟨(resolveCollision w bi bj (orientInfo info bi bj)).1, ?_, ?_, ?_, ?_⟩
            · rw [List.getElem?_set_ne (Ne.symm hij),
                List.getElem?_set_self (by simpa using hlt)]
            · exact (resolveCollision_static_fst _ _ _ _ h1 h2).2.2
            · exact (resolveCollision_static_fst _ _ _ _ h1 h2).2.1
            · rw [(resolveCollision_static_fst _ _ _ _ h1 h2).1]; exact h3
          · by_cases htj : t = ij.2
            · subst htj
              have hbeq : bj = b := by rw [hbj] at hb; injection hb
              subst hbeq
              have hlt := (List.getElem?_eq_some.mp hb).1
              refine ⟨(resolveCollision w bi bj (orientInfo info bi bj)).2.1, ?_, ?_, ?_, ?_⟩
              · rw [List.getElem?_set_self (by simpa using hlt)]
              · exact (resolveCollision_static_snd _ _ _ _ h1 h2).2.2
              · exact (resolveCollision_static_snd _ _ _ _ h1 h2).2.1
              · rw [(resolveCollision_static_snd _ _ _ _ h1 h2).1]; exact h3
            · exact ⟨b, by
                rw [List.getElem?_set_ne (fun hh => htj hh.symm),
                  List.getElem?_set_ne (fun hh => hti hh.symm)]
                exact hb, h1, h2, h3⟩
        · exact h
      · exact h
    · exact h

theorem pairStep_preserves_pinnedAt (w : World) (ij : ℕ × ℕ) (t : ℕ) (c : Vec2)
    (st : List Body × Bool) (h : pinnedAt t c st.1) : pinnedAt t c (pairStep w st ij).1 := by
  unfold pairStep
  split_ifs with hij
  · exact h
  · split
    · rename_i bi bj hbi hbj
      split_ifs with hmm hbt
      · exact h
      · split
        · rename_i info hinfo
          dsimp only
          obtain ⟨b, hb, h1, h3⟩ := h
          by_cases hti : t = ij.1
          · subst hti
            have hbeq : bi = b := by rw [hbi] at hb; injection hb
            subst hbeq
            have hlt := (List.getElem?_eq_some.mp hb).1
            refine ⟨(resolveCollision w bi bj (orientInfo info bi bj)).1, ?_, ?_, ?_⟩
            · rw [List.getElem?_set_ne (Ne.symm hij),
                List.getElem?_set_self (by simpa using hlt)]
            · exact (resolveCollision_pinned_fst _ _ _ _ h1).2
            · rw [(resolveCollision_pinned_fst _ _ _ _ h1).1]; exact h3
          · by_cases htj : t = ij.2
            · subst htj
              have hbeq : bj = b := by rw [hbj] at hb; injection hb
              subst hbeq
              have hlt := (List.getElem?_eq_some.mp hb).1
              refine ⟨(resolveCollision w bi bj (orientInfo info bi bj)).2.1, ?_, ?_, ?_⟩
              · rw [List.getElem?_set_self (by simpa using hlt)]
              · exact (resolveCollision_pinned_snd _ _ _ _ h1).2
              · rw [(resolveCollision_pinned_snd _ _ _ _ h1).1]; exact h3
            · exact ⟨b, by
                rw [List.getElem?_set_ne (fun hh => htj hh.symm),
                  List.getElem?_set_ne (fun hh => hti hh.symm)]
                exact hb, h1, h3⟩
        · exact h
      · exact h
    · exact h

theorem sweeps_preserves_staticAt (w : World) (k : ℕ) (t : ℕ) (c : Vec2) :
    ∀ bodies, staticAt t c bodies → staticAt t c (sweeps w k bodies) := by
  induction k with
  | zero => intro bodies h; exact h
  | succ k ih =>
    intro bodies h
    show staticAt t c
      (let r := sweepOnce w bodies; if r.2 then sweeps w k r.1 else r.1)
    have honce : staticAt t c (sweepOnce w bodies).1 :=
      foldl_preserve (fun st => staticAt t c st.1) (pairStep w)
        (fun s a hs => pairStep_preserves_staticAt w a t c s hs) _ (bodies, false) h
    dsimp only
    split_ifs
    · exact ih _ honce
    · exact honce

theorem sweeps_preserves_pinnedAt (w : World) (k : ℕ) (t : ℕ) (c : Vec2) :
    ∀ bodies, pinnedAt t c bodies → pinnedAt t c (sweeps w k bodies) := by
  induction k with
  | zero => intro bodies h; exact h
  | succ k ih =>
    intro bodies h
    show pinnedAt t c
      (let r := sweepOnce w bodies; if r.2 then sweeps w k r.1 else r.1)
    have honce : pinnedAt t c (sweepOnce w bodies).1 :=
      foldl_preserve (fun st => pinnedAt t c st.1) (pairStep w)
        (fun s a hs => pairStep_preserves_pinnedAt w a t c s hs) _ (bodies, false) h
    dsimp only
    split_ifs
    · exact ih _ honce
    · exact honce

theorem map_preserves_staticAt (t : ℕ) (c : Vec2) (f : Body → Body)
    (hf : ∀ b, b.mass = 0 → b.velocity = ⟨0, 0⟩ →
      (f b).mass = 0 ∧ (f b).velocity = ⟨0, 0⟩ ∧ (f b).center = b.center)
    (bodies : List Body) (h : staticAt t c bodies) : staticAt t c (bodies.map f) := by
  obtain ⟨b, hb, h1, h2, h3⟩ := h
  refine ⟨f b, ?_, (hf b h1 h2).1, (hf b h1 h2).2.1, ?_⟩
  · rw [List.getElem?_map, hb]; rfl
  · rw [(hf b h1 h2).2.2]; exact h3

theorem map_preserves_pinnedAt (t : ℕ) (c : Vec2) (f : Body → Body)
    (hf : ∀ b, b.pinned = true → (f b).pinned = true ∧ (f b).center = b.center)
    (bodies : List Body) (h : pinnedAt t c bodies) : pinnedAt t c (bodies.map f) := by
  obtain ⟨b, hb, h1, h3⟩ := h
  refine ⟨f b, ?_, (hf b h1).1, ?_⟩
  · rw [List.getElem?_map, hb]; rfl
  · rw [(hf b h1).2]; exact h3

theorem worldStep_preserves_staticAt (fps : ℝ) (w : World) (t : ℕ) (c : Vec2)
    (h : staticAt t c w.bodies) : staticAt t c (worldStep fps w).bodies := by
  unfold worldStep
  dsimp only
  apply map_preserves_staticAt t c _ (fun b h1 h2 => by
    rw [restUpdate_mass, restUpdate_velocity, restUpdate_center]
    exact ⟨h1, h2, rfl⟩)
  apply sweeps_preserves_staticAt
  apply jointPass_preserves_staticAt
  apply map_preserves_staticAt t c _ (fun b h1 h2 => by
    rw [integrate_static fps b h1]
    exact ⟨h1, h2, rfl⟩)
  exact h

theorem worldStep_preserves_pinnedAt (fps : ℝ) (w : World) (t : ℕ) (c : Vec2)
    (h : pinnedAt t c w.bodies) : pinnedAt t c (worldStep fps w).bodies := by
  unfold worldStep
  dsimp only
  apply map_preserves_pinnedAt t c _ (fun b h1 => by
    rw [restUpdate_pinned, restUpdate_center]
    exact ⟨h1, rfl⟩)
  apply sweeps_preserves_pinnedAt
  apply jointPass_preserves_pinnedAt
  apply map_preserves_pinnedAt t c _ (fun b h1 =>
    ⟨(integrate_pinned fps b h1).2, (integrate_pinned fps b h1).1⟩)
  exact h

/-- Claim C1: a body created with mass 0 (stored inverse mass 0, hence
velocity zero at creation and immune to allowPinnedRotation, which would
change the stored inverse mass) keeps its center and velocity across any
number of worldStep calls, whatever else the world contains: integration
and the joint pass skip zero-inverse-mass bodies, and every position or
velocity change of collision resolution is scaled by the inverse mass. -/
theorem static_bodies_immobile (n : ℕ) (fps : ℝ) (w : World) (t : ℕ) (b : Body)
    (hb : w.bodies[t]? = some b) (hm : b.mass = 0) (hv : b.velocity = ⟨0, 0⟩) :
    ∃ b2, (stepN fps n w).bodies[t]? = some b2 ∧
      b2.center = b.center ∧ b2.velocity = b.velocity ∧ b2.mass = 0 := by
  have key : ∀ (m : ℕ) (w2 : World), staticAt t b.center w2.bodies →
      staticAt t b.center (stepN fps m w2).bodies := by
    intro m
    induction m with
    | zero => intro w2 h; exact h
    | succ m ih =>
      intro w2 h
      show staticAt t b.center (stepN fps m (worldStep fps w2)).bodies
      exact ih _ (worldStep_preserves_staticAt fps w2 t b.center h)
  obtain ⟨b2, hb2, h1, h2, h3⟩ := key n w ⟨b, hb, hm, hv, rfl⟩
  exact ⟨b2, hb2, h3, by rw [h2, hv], h1⟩

theorem statBody_mass : statBody.mass = 0 := by
  simp only [statBody, createCircle, createRigidShape_mass]; norm_num

theorem statBody_velocity : statBody.velocity = ⟨0, 0⟩ := by
  simp only [statBody, createCircle, createRigidShape_velocity]

/-- Witness for claim C1: in a world where a static circle is overlapped
by a movable circle, two full steps leave the static circle exactly in
place with zero velocity. -/
theorem static_bodies_immobile_witness :
    ∃ b2, (stepN 60 2 mixWorld).bodies[0]? = some b2 ∧
      b2.center = statBody.center ∧ b2.velocity = statBody.velocity ∧ b2.mass = 0 :=
  static_bodies_immobile 2 60 mixWorld 0 statBody rfl statBody_mass statBody_velocity

/-- Claim C9: moveShape is a complete no-op on a pinned body, so neither
integration nor collision positional correction nor the joint pass ever
alters a pinned body center (all position changes go through moveShape),
while rotateShape still advances the angle of any body, pinned or not. -/
theorem pinned_position_frozen :
    (∀ (b : Body) (v : Vec2), b.pinned = true → moveShape b v = b) ∧
    (∀ (b : Body) (a : ℝ), (rotateShape b a).angle = b.angle + a) ∧
    (∀ (fps : ℝ) (w : World) (t : ℕ) (b : Body),
      w.bodies[t]? = some b → b.pinned = true →
      ∃ b2, (worldStep fps w).bodies[t]? = some b2 ∧ b2.center = b.center ∧
        b2.pinned = true) := by
  refine ⟨moveShape_pinned_id, rotateShape_angle, ?_⟩
  intro fps w t b hb hp
  obtain ⟨b2, hb2, h1, h2⟩ := worldStep_preserves_pinnedAt fps w t b.center ⟨b, hb, hp, rfl⟩
  exact ⟨b2, hb2, h2, h1⟩

/-- Witness for claim C9 on the pinned rotatable circle: moveShape does
nothing to it, rotateShape advances its angle, and a world step keeps its
center. -/
theorem pinned_position_frozen_witness :
    moveShape pinnedBody ⟨3, 4⟩ = pinnedBody ∧
    (rotateShape pinnedBody 2).angle = pinnedBody.angle + 2 ∧
    ∃ b2, (worldStep 60 pinWorld).bodies[0]? = some b2 ∧ b2.center = pinnedBody.center ∧
      b2.pinned = true :=
  ⟨pinned_position_frozen.1 pinnedBody ⟨3, 4⟩ pinnedBody_pinned,
   pinned_position_frozen.2.1 pinnedBody 2,
   pinned_position_frozen.2.2 60 pinWorld 0 pinnedBody rfl pinnedBody_pinned⟩

/-- Witness for claim C8: the free body with velocity (3,4) and zero
acceleration, stepped at rate 60 in a world containing only it. -/
theorem integration_step_witness :
    ∃ b2, (worldStep 60 freeWorld).bodies = [b2] ∧
      b2.center = addVec2 freeBody.center (scaleVec2 freeBody.velocity (1 / 60)) ∧
      b2.velocity = freeBody.velocity :=
  integration_step 60 freeWorld freeBody rfl rfl
    (by rw [freeBody_mass]; norm_num) freeBody_pinned rfl (by norm_num)

/-! Rectangle fixtures and the claim C4 family. -/

theorem normalize_eval2 (x y L : ℝ) (hL : x * x + y * y = L ^ 2) (h0 : 0 < L) :
    normalize ⟨x, y⟩ = ⟨x / L, y / L⟩ :=
  normalize_eval x y L (sqrtOfSq (le_of_lt h0) hL) (ne_of_gt h0)

theorem createRigidShape_faceNormals_rect (w : World) (c : Vec2) (m f r : ℝ) (bd wd ht : ℝ) :
    ((createRigidShape w c m f r ShapeType.RECTANGLE bd wd ht).1).faceNormals =
      computeRectNormals ((createRigidShape w c m f r ShapeType.RECTANGLE bd wd ht).1).vertices :=
  rfl

theorem rA_type : rA.type = ShapeType.RECTANGLE := by
  simp only [rA, createRectangle, createRigidShape_type]

theorem rB_type : rB.type = ShapeType.RECTANGLE := by
  simp only [rB, createRectangle, createRigidShape_type]

theorem rA_mass : rA.mass = 1 := by
  simp only [rA, createRectangle, createRigidShape_mass]; norm_num

theorem rB_mass : rB.mass = 0 := by
  simp only [rB, createRectangle, createRigidShape_mass]; norm_num

theorem rA_v0 : rA.vertices 0 = ⟨0, 0⟩ := by
  simp only [rA, createRectangle, createRigidShape_vertices, quad_zero]
  ext <;> norm_num [mathFloor]

theorem rA_v1 : rA.vertices 1 = ⟨4, 0⟩ := by
  simp only [rA, createRectangle, createRigidShape_vertices, quad_one]
  ext <;> norm_num [mathFloor]

theorem rA_v2 : rA.vertices 2 = ⟨4, 4⟩ := by
  simp only [rA, createRectangle, createRigidShape_vertices, quad_two]
  ext <;> norm_num [mathFloor]

theorem rA_v3 : rA.vertices 3 = ⟨0, 4⟩ := by
  simp only [rA, createRectangle, createRigidShape_vertices, quad_three]
  ext <;> norm_num [mathFloor]

theorem rB_v0 : rB.vertices 0 = ⟨3, 1⟩ := by
  simp only [rB, createRectangle, createRigidShape_vertices, quad_zero]
  ext <;> norm_num [mathFloor]

theorem rB_v1 : rB.vertices 1 = ⟨7, 1⟩ := by
  simp only [rB, createRectangle, createRigidShape_vertices, quad_one]
  ext <;> norm_num [mathFloor]

theorem rB_v2 : rB.vertices 2 = ⟨7, 3⟩ := by
  simp only [rB, createRectangle, createRigidShape_vertices, quad_two]
  ext <;> norm_num [mathFloor]

theorem rB_v3 : rB.vertices 3 = ⟨3, 3⟩ := by
  simp only [rB, createRectangle, createRigidShape_vertices, quad_three]
  ext <;> norm_num [mathFloor]

theorem rA_faceNormals : rA.faceNormals = computeRectNormals rA.vertices := by
  simp only [rA, createRectangle]
  exact createRigidShape_faceNormals_rect _ _ _ _ _ _ _ _

theorem rB_faceNormals : rB.faceNormals = computeRectNormals rB.vertices := by
  simp only [rB, createRectangle]
  exact createRigidShape_faceNormals_rect _ _ _ _ _ _ _ _

theorem rA_n0 : rA.faceNormals 0 = ⟨0, -1⟩ := by
  rw [rA_faceNormals]
  show normalize (subtractVec2 (rA.vertices 1) (rA.vertices 2)) = _
  rw [rA_v1, rA_v2, subtractVec2_mk, normalize_eval2 _ _ 4 (by norm_num) (by norm_num)]
  ext <;> norm_num

theorem rA_n1 : rA.faceNormals 1 = ⟨1, 0⟩ := by
  rw [rA_faceNormals]
  show normalize (subtractVec2 (rA.vertices 2) (rA.vertices 3)) = _
  rw [rA_v2, rA_v3, subtractVec2_mk, normalize_eval2 _ _ 4 (by norm_num) (by norm_num)]
  ext <;> norm_num

theorem rA_n2 : rA.faceNormals 2 = ⟨0, 1⟩ := by
  rw [rA_faceNormals]
  show normalize (subtractVec2 (rA.vertices 3) (rA.vertices 0)) = _
  rw [rA_v3, rA_v0, subtractVec2_mk, normalize_eval2 _ _ 4 (by norm_num) (by norm_num)]
  ext <;> norm_num

theorem rA_n3 : rA.faceNormals 3 = ⟨-1, 0⟩ := by
  rw [rA_faceNormals]
  show normalize (subtractVec2 (rA.vertices 0) (rA.vertices 1)) = _
  rw [rA_v0, rA_v1, subtractVec2_mk, normalize_eval2 _ _ 4 (by norm_num) (by norm_num)]
  ext <;> norm_num

theorem rB_n0 : rB.faceNormals 0 = ⟨0, -1⟩ := by
  rw [rB_faceNormals]
  show normalize (subtractVec2 (rB.vertices 1) (rB.vertices 2)) = _
  rw [rB_v1, rB_v2, subtractVec2_mk, normalize_eval2 _ _ 2 (by norm_num) (by norm_num)]
  ext <;> norm_num

theorem rB_n1 : rB.faceNormals 1 = ⟨1, 0⟩ := by
  rw [rB_faceNormals]
  show normalize (subtractVec2 (rB.vertices 2) (rB.vertices 3)) = _
  rw [rB_v2, rB_v3, subtractVec2_mk, normalize_eval2 _ _ 4 (by norm_num) (by norm_num)]
  ext <;> norm_num

theorem rB_n2 : rB.faceNormals 2 = ⟨0, 1⟩ := by
  rw [rB_faceNormals]
  show normalize (subtractVec2 (rB.vertices 3) (rB.vertices 0)) = _
  rw [rB_v3, rB_v0, subtractVec2_mk, normalize_eval2 _ _ 2 (by norm_num) (by norm_num)]
  ext <;> norm_num

theorem rB_n3 : rB.faceNormals 3 = ⟨-1, 0⟩ := by
  rw [rB_faceNormals]
  show normalize (subtractVec2 (rB.vertices 0) (rB.vertices 1)) = _
  rw [rB_v0, rB_v1, subtractVec2_mk, normalize_eval2 _ _ 4 (by norm_num) (by norm_num)]
  ext <;> norm_num

theorem findAxis_rA_rB :
    findAxisLeastPenetration rA rB = some ⟨1, ⟨1, 0⟩, ⟨4, 3⟩, ⟨5, 3⟩⟩ := by
  norm_num [findAxisLeastPenetration, falpAux, supportOnB, List.foldl,
    rA_v0, rA_v1, rA_v2, rA_v3, rA_n0, rA_n1, rA_n2, rA_n3,
    rB_v0, rB_v1, rB_v2, rB_v3,
    subtractVec2_mk, dotProduct, scaleVec2, addVec2, setCollisionInfo,
    Collision.mk.injEq, Vec2.mk.injEq]

theorem findAxis_rB_rA :
    findAxisLeastPenetration rB rA = some ⟨1, ⟨-1, 0⟩, ⟨3, 4⟩, ⟨2, 4⟩⟩ := by
  norm_num [findAxisLeastPenetration, falpAux, supportOnB, List.foldl,
    rB_v0, rB_v1, rB_v2, rB_v3, rB_n0, rB_n1, rB_n2, rB_n3,
    rA_v0, rA_v1, rA_v2, rA_v3,
    subtractVec2_mk, dotProduct, scaleVec2, addVec2, setCollisionInfo,
    Collision.mk.injEq, Vec2.mk.injEq]

/-- Claim C4 (amended): in the rectangle versus rectangle test, when
both directed axis searches produce a candidate, the one with strictly
smaller depth is chosen, ties favoring the B-to-A candidate (the source
comparison is strict, so on equal depths the else branch runs); when the
B-to-A candidate wins its normal is negated and its contact start point
is used, so the stored record derives entirely from that candidate. -/
theorem rectRect_candidate_selection (c1 c2 : Body) (r1 r2 : Collision)
    (h1 : c1.type = ShapeType.RECTANGLE) (h2 : c2.type = ShapeType.RECTANGLE)
    (hm : ¬(c1.mass = 0 ∧ c2.mass = 0))
    (f1 : findAxisLeastPenetration c1 c2 = some r1)
    (f2 : findAxisLeastPenetration c2 c1 = some r2) :
    testCollision c1 c2 =
      some (if r1.depth < r2.depth
        then setCollisionInfo r1.depth r1.normal
          (subtractVec2 r1.start (scaleVec2 r1.normal r1.depth))
        else setCollisionInfo r2.depth (scaleVec2 r2.normal (-1)) r2.start) := by
  simp only [testCollision, if_neg hm, h1, h2]
  simp only [rectRectCollision, f1, f2]
  split_ifs <;> rfl

/-- Counterexample to claim C4 as stated: the rectangles rA and rB
produce candidates of equal depth 1 in both directions, and the stored
collision comes from the B-to-A candidate (start point (3,4)), not from
the A-to-B candidate (which would give start point (3,3)): ties favor
B-to-A, not A-to-B. -/
theorem rectRect_tie_counterexample :
    findAxisLeastPenetration rA rB = some ⟨1, ⟨1, 0⟩, ⟨4, 3⟩, ⟨5, 3⟩⟩ ∧
    findAxisLeastPenetration rB rA = some ⟨1, ⟨-1, 0⟩, ⟨3, 4⟩, ⟨2, 4⟩⟩ ∧
    testCollision rA rB = some ⟨1, ⟨1, 0⟩, ⟨3, 4⟩, ⟨4, 4⟩⟩ ∧
    (⟨1, ⟨1, 0⟩, ⟨3, 4⟩, ⟨4, 4⟩⟩ : Collision) ≠
      setCollisionInfo 1 (Collision.normal ⟨1, ⟨1, 0⟩, ⟨4, 3⟩, ⟨5, 3⟩⟩)
        (subtractVec2 (Collision.start ⟨1, ⟨1, 0⟩, ⟨4, 3⟩, ⟨5, 3⟩⟩)
          (scaleVec2 (Collision.normal ⟨1, ⟨1, 0⟩, ⟨4, 3⟩, ⟨5, 3⟩⟩) 1)) := by
  have hm : ¬(rA.mass = 0 ∧ rB.mass = 0) := by
    rw [rA_mass]; intro h; exact absurd h.1 one_ne_zero
  refine ⟨findAxis_rA_rB, findAxis_rB_rA, ?_, ?_⟩
  · simp only [testCollision, if_neg hm, rA_type, rB_type]
    simp only [rectRectCollision, findAxis_rA_rB, findAxis_rB_rA]
    norm_num [setCollisionInfo, subtractVec2_mk, scaleVec2, addVec2,
      Collision.mk.injEq, Vec2.mk.injEq]
  · intro h
    have := congrArg (fun i => i.start.y) h
    norm_num [setCollisionInfo, subtractVec2_mk, scaleVec2, addVec2] at this

/-- Witness for the amended claim C4 at the concrete tie: both searches
succeed with depth 1 and the selection formula applies. -/
theorem rectRect_candidate_selection_witness :
    testCollision rA rB =
      some (if (1:ℝ) < 1
        then setCollisionInfo 1 (⟨1, 0⟩ : Vec2)
          (subtractVec2 ⟨4, 3⟩ (scaleVec2 ⟨1, 0⟩ 1))
        else setCollisionInfo 1 (scaleVec2 (⟨-1, 0⟩ : Vec2) (-1)) ⟨3, 4⟩) :=
  rectRect_candidate_selection rA rB ⟨1, ⟨1, 0⟩, ⟨4, 3⟩, ⟨5, 3⟩⟩ ⟨1, ⟨-1, 0⟩, ⟨3, 4⟩, ⟨2, 4⟩⟩
    rA_type rB_type
    (by rw [rA_mass]; intro h; exact absurd h.1 one_ne_zero)
    findAxis_rA_rB findAxis_rB_rA

end physics

end
